import Mathlib

/-!
# Tracker web client: `backend/web/static/js/app.js`

A shallow embedding of the browser client that talks to the tracker over a
Socket.IO session.  The script is one closure over two variables (`peerId`,
`socket`) and a handful of DOM elements; every function of the script becomes a
computation over an explicit `State` that holds those variables, the DOM fields
the script writes, and the outbound traffic it produces.

Conventions of the embedding

* JavaScript values that arrive from the wire are `JSVal` (JSON shaped).  Numbers
  are the integers of magnitude below 2^53 (`SafeInt`), which print as their
  decimal digits: counts, ports, sizes and epoch-millisecond stamps are such
  integers on this wire; fractions, `NaN` and larger magnitudes are not
  represented.  Strings are sequences of Unicode scalar values.
* Converting a value to text (`ToString`, `ToPrimitive`) throws a `TypeError` on
  an object that has an own `toString` member, since no JSON value is callable,
  and on an array that holds such an object; `toText` models this.
* A computation is `JS α := State → Res α`: it either completes or throws, and in
  both cases returns the state reached (effects performed before a `throw` stay).
* Text produced by locale or floating point formatting is kept symbolic, as a
  `Piece` (`new Date(v).toLocaleTimeString()`, `(v / 1024).toFixed(2)`).
* The transport library (Socket.IO) is the environment: it owns the `connected`
  and `id` fields of a session, and delivers events by running the handlers the
  script registered in `connectToTracker`.
-/

namespace TrackerClient

/-! ## JavaScript values -/

/-- A JavaScript number that is an integer of magnitude below 2^53, given by
its sign and magnitude; `negative` with magnitude 0 is the number `-0`. -/
structure SafeInt where
  negative : Bool
  magnitude : Fin 9007199254740992

instance (n : Nat) : OfNat SafeInt n :=
  ⟨⟨false, ⟨n % 9007199254740992, Nat.mod_lt n (by decide)⟩⟩⟩

/-- The decimal digits `ToString` gives for a safe integer; `-0` prints as
`0`. -/
def SafeInt.digits (n : SafeInt) : String :=
  (if n.negative && n.magnitude.val != 0 then "-" else "") ++ toString n.magnitude.val

/-- JSON shaped JavaScript values. -/
inductive JSVal where
  | undefined
  | null
  | bool (b : Bool)
  | num (n : SafeInt)
  | str (s : String)
  | arr (items : List JSVal)
  | obj (fields : List (String × JSVal))

namespace JSVal

mutual
/-- The text `ToString` gives when it does not throw (see `toText`). -/
def toStr : JSVal → String
  | undefined => "undefined"
  | null => "null"
  | bool true => "true"
  | bool false => "false"
  | num n => n.digits
  | str s => s
  | arr items => joinItems items
  | obj _ => "[object Object]"
termination_by structural v => v
/-- The `Array.prototype.join(",")` behind `ToString` of an array: `undefined`
and `null` elements contribute the empty string. -/
def joinItems : List JSVal → String
  | [] => ""
  | v :: rest =>
    (match v with
      | undefined => ""
      | null => ""
      | w => toStr w) ++
    (match rest with
      | [] => ""
      | _ :: _ => "," ++ joinItems rest)
termination_by structural l => l
end

mutual
/-- Whether `ToPrimitive`, and with it `ToString`, `new Date(v)` and `v / 1024`,
completes on `v`: it throws on an object with an own `toString` member (a JSON
value is never callable, and then neither `toString` nor `valueOf` yields a
primitive) and on an array one of whose elements it throws on. -/
def printable : JSVal → Bool
  | arr items => allPrintable items
  | obj fields => (fields.lookup "toString").isNone
  | _ => true
termination_by structural v => v
/-- Every element converts to text. -/
def allPrintable : List JSVal → Bool
  | [] => true
  | v :: rest => printable v && allPrintable rest
termination_by structural l => l
end

/-- The error object of a `TypeError` with the given message. -/
def typeError (msg : String) : JSVal :=
  obj [("name", str "TypeError"), ("message", str msg)]

/-- The conversion `ToString(v)` of a template literal `${v}`. -/
def toText (v : JSVal) : Except JSVal String :=
  if v.printable then .ok v.toStr
  else .error (typeError "cannot convert object to primitive value")

/-- The `ToBoolean` conversion (`!v`, `v || d`, `v ? a : b`). -/
def truthy : JSVal → Bool
  | undefined => false
  | null => false
  | bool b => b
  | num n => n.magnitude.val != 0
  | str s => s != ""
  | arr _ => true
  | obj _ => true

/-- The expression `v || d`. -/
def orElse (v d : JSVal) : JSVal := if v.truthy then v else d

/-- The value a `DOMString?` attribute such as `textContent` stores when `v` is
assigned to it: `null` and `undefined` clear the text, other values are
converted with `ToString`. -/
def toTextContent : JSVal → Except JSVal String
  | undefined => .ok ""
  | null => .ok ""
  | v => v.toText

/-- Property read `v.key` for the data members the script reads (`message`,
`type`, `peer_id`, `count`, `peers`, `torrents`, `ip`, `port`, `connected_at`,
`filename`, `info_hash`, `size`, `uploaded_at`, `success`, `error`); `length`
and `map` are modelled by `lengthIsZero` and `mapJoin`.  Reading a member of
`undefined` or `null` throws a `TypeError` (`Except.error`); an object yields
its member or `undefined`; arrays, strings, numbers and booleans have none of
these members. -/
def getProp (v : JSVal) (key : String) : Except JSVal JSVal :=
  match v with
  | undefined => .error (typeError ("cannot read property " ++ key ++ " of undefined"))
  | null => .error (typeError ("cannot read property " ++ key ++ " of null"))
  | obj fields => .ok ((fields.lookup key).getD undefined)
  | arr _ => .ok undefined
  | str _ => .ok undefined
  | bool _ => .ok undefined
  | num _ => .ok undefined

/-- The test `v === 0`. -/
def isZero : JSVal → Bool
  | num n => n.magnitude.val == 0
  | _ => false

/-- The test `v.length === 0` on a value that is neither `undefined` nor
`null`: an array or a string has its own length, an object has the member it
carries, a number or boolean has none. -/
def lengthIsZero : JSVal → Bool
  | arr items => items.isEmpty
  | str s => s == ""
  | obj fields => ((fields.lookup "length").getD undefined).isZero
  | _ => false

end JSVal

open JSVal

/-! ## Markup -/

/-- A fragment of generated text.  Locale and floating point formatting stay
symbolic. -/
inductive Piece where
  /-- literal text -/
  | text (s : String)
  /-- the text of `new Date(v).toLocaleTimeString()`, for printable `v` -/
  | localeTime (v : JSVal)
  /-- the text of `(v / 1024).toFixed(2)`, for printable `v` -/
  | fixed2KB (v : JSVal)

/-- Generated markup: the concatenation of its pieces. -/
abbrev Html := List Piece

/-- The expression `new Date(v).toLocaleTimeString()`: the conversion of `v` to
a primitive may throw; the formatting does not. -/
def localeTimeOf (v : JSVal) : Except JSVal Piece :=
  if v.printable then .ok (.localeTime v)
  else .error (typeError "cannot convert object to primitive value")

/-- The expression `(v / 1024).toFixed(2)`: the conversion of `v` to a number
may throw; the formatting does not. -/
def fixed2KBOf (v : JSVal) : Except JSVal Piece :=
  if v.printable then .ok (.fixed2KB v)
  else .error (typeError "cannot convert object to primitive value")

/-! ## State -/

/-- A Socket.IO client socket created by `io(url, options)`. -/
structure Session where
  url : String
  reconnection : Bool
  reconnectionAttempts : Nat
  reconnectionDelay : Nat
  transports : List String
  /-- `socket.connected`, maintained by the library -/
  connected : Bool
  /-- `socket.id`, maintained by the library: a string, or `none` for
  `undefined` -/
  id : Option String
  /-- `disconnect()` has been called on this socket -/
  closed : Bool
  /-- automatic reconnection attempts the library has made since the socket was
  opened or last connected -/
  attempts : Nat

/-- The text of `${socket.id}`. -/
def Session.idText (x : Session) : String :=
  match x.id with
  | some sid => sid
  | none => "undefined"

/-- One `socket.emit(event, payload)`; `payload = none` is an emit without
argument. -/
structure Emit where
  session : Nat
  event : String
  payload : Option JSVal

/-- A file chosen in the `torrentFile` input. -/
structure File where
  name : String

/-- One `fetch(url, { method, body })` whose form data carries `file` under
`field`. -/
structure UploadRequest where
  url : String
  method : String
  field : String
  file : File

/-- One child of the `logs` element. -/
structure LogEntry where
  className : String
  innerHTML : Html

/-- The closure variables of the script, the DOM fields it writes, and the
traffic it has produced. -/
structure State where
  /-- `const peerId` -/
  peerId : String
  /-- `typeof io !== "undefined"` -/
  ioLoaded : Bool
  /-- the clock, `Date.now()` -/
  now : SafeInt
  /-- `let socket`: `none` is `null`, `some i` refers to `sessions[i]` -/
  socket : Option Nat
  /-- every socket created so far, oldest first -/
  sessions : List Session
  /-- every event emitted so far, oldest first -/
  sent : List Emit
  /-- every upload request submitted so far, oldest first -/
  requests : List UploadRequest
  /-- `torrentFile.files[0]` -/
  selectedFile : Option File
  statusText : String
  statusClass : String
  socketStatusHtml : String
  socketStatusClass : String
  logs : List LogEntry
  peerCount : String
  torrentCount : String
  peersDiv : Html
  torrentsDiv : Html
  /-- the common `disabled` flag of `registerBtn`, `peersBtn`, `torrentsBtn`,
  `testBtn`, `uploadBtn` (always written together) -/
  commandsDisabled : Bool
  connectBtnHtml : String

/-- Outcome of a computation: completion with a value, or a thrown error; the
state reached is kept in both cases. -/
inductive Res (α : Type) where
  | ok (a : α) (s : State)
  | thrown (e : JSVal) (s : State)

namespace Res

/-- The state reached. -/
def state {α : Type} : Res α → State
  | ok _ s => s
  | thrown _ s => s

/-- Whether the computation completed without throwing. -/
def completed {α : Type} : Res α → Bool
  | ok _ _ => true
  | thrown _ _ => false

end Res

/-- A computation of the script. -/
def JS (α : Type) : Type := State → Res α

namespace JS

/-- Completion with a value. -/
def ret {α : Type} (a : α) : JS α := fun s => .ok a s

/-- Sequencing: a thrown error skips the rest. -/
def andThen {α β : Type} (x : JS α) (f : α → JS β) : JS β := fun s =>
  match x s with
  | .ok a s1 => f a s1
  | .thrown e s1 => .thrown e s1

instance : Monad JS where
  pure := ret
  bind := andThen

/-- The statement `throw e`. -/
def throw {α : Type} (e : JSVal) : JS α := fun s => .thrown e s

/-- The statement `try { body } catch (err) { handler }`. -/
def tryCatch {α : Type} (body : JS α) (handler : JSVal → JS α) : JS α := fun s =>
  match body s with
  | .ok a s1 => .ok a s1
  | .thrown e s1 => handler e s1

/-- Read the state. -/
def get : JS State := fun s => .ok s s

/-- Update the state. -/
def modify (f : State → State) : JS Unit := fun s => .ok () (f s)

/-- Lift a pure computation that may throw. -/
def lift {α : Type} : Except JSVal α → JS α
  | .ok a => ret a
  | .error e => throw e

end JS

open JS

/-- The socket the variable `socket` refers to, if any. -/
def currentSession (s : State) : Option Session :=
  match s.socket with
  | none => none
  | some i => s.sessions[i]?

/-- The test `socket && socket.connected`. -/
def socketConnected (s : State) : Bool :=
  match currentSession s with
  | none => false
  | some sess => sess.connected

/-! ## Utility functions -/

/-- `log(message, type = "info")`: builds the entry, whose class name converts
`type` to text, appends it to `logs`, then writes the console line, whose
`type.toUpperCase()` throws when `type` is not a string. -/
def log (message : String) (type : JSVal := .str "info") : JS Unit := fun s =>
  let ty := match type with
    | .undefined => JSVal.str "info"
    | t => t
  match ty.toText with
  | .error e => .thrown e s
  | .ok tyText =>
    let entry : LogEntry :=
      ⟨"log " ++ tyText, [.text "[", .localeTime (.num s.now), .text "] ", .text message]⟩
    let s1 := { s with logs := s.logs ++ [entry] }
    match ty with
    | .str _ => .ok () s1
    | _ => .thrown (typeError "type.toUpperCase is not a function") s1

/-- `updateStatus(text, color = "grey")`. -/
def updateStatus (text : String) (color : String := "grey") : JS Unit :=
  modify fun s => { s with
    statusText := text
    statusClass :=
      if color = "green" then "connected"
      else if color = "red" then "disconnected"
      else "disconnected" }

/-- `updateSocketStatus(message, isGood)`. -/
def updateSocketStatus (message : String) (isGood : Bool) : JS Unit :=
  modify fun s => { s with
    socketStatusHtml := message
    socketStatusClass := "socket-status " ++ (if isGood then "socket-good" else "socket-bad") }

/-- `updateButtonStates(connected)`. -/
def updateButtonStates (connected : Bool) : JS Unit :=
  modify fun s => { s with
    commandsDisabled := !connected
    connectBtnHtml := if connected then "Reconnect" else "Connect to Tracker" }

/-- `clearLogs()`. -/
def clearLogs : JS Unit := do
  modify fun s => { s with logs := [] }
  log "Logs cleared" (.str "info")

/-- `debugConnection()`. -/
def debugConnection : JS Unit := do
  let s ← get
  log "=== DEBUG INFO ===" (.str "warning")
  log ("Socket exists: " ++ (JSVal.bool s.socket.isSome).toStr) (.str "info")
  log ("Socket connected: " ++
    (match currentSession s with
      | some sess => (JSVal.bool sess.connected).toStr
      | none => "N/A")) (.str "info")
  log ("Socket ID: " ++
    (match currentSession s with
      | some sess => sess.idText
      | none => "N/A")) (.str "info")
  log ("Peer ID: " ++ s.peerId) (.str "info")

/-! ## Rendering of the two collections -/

/-- The placeholder `displayPeers` shows for an absent or empty list. -/
def noPeersHtml : Html := [.text "<div style=\"color:#777;\">No peers connected</div>"]

/-- The placeholder `displayTorrents` shows for an absent or empty list. -/
def noTorrentsHtml : Html := [.text "<div style=\"color:#777;\">No torrents available</div>"]

/-- The template literal of `displayPeers`, for one element of the list. -/
def renderPeer (peer : JSVal) : Except JSVal Html := do
  let peer_id ← peer.getProp "peer_id"
  let idText ← peer_id.toText
  let ip ← peer.getProp "ip"
  let ipText ← ip.toText
  let port ← peer.getProp "port"
  let portText ← port.toText
  let connected_at ← peer.getProp "connected_at"
  let connected ← localeTimeOf connected_at
  pure [
    .text ("\n            <li>\n                <strong>" ++ idText ++ "</strong><br>\n" ++
      "                <small>IP: " ++ ipText ++ ":" ++ portText ++ "</small><br>\n" ++
      "                <small>Connected: "),
    connected,
    .text "</small>\n            </li>\n        "]

/-- The expression `size ? (size / 1024).toFixed(2) + " KB" : "Unknown"`. -/
def sizeLabel (size : JSVal) : Except JSVal Html :=
  if size.truthy then
    match fixed2KBOf size with
    | .error e => .error e
    | .ok kb => .ok [kb, .text " KB"]
  else .ok [.text "Unknown"]

/-- The template literal of `displayTorrents`, for one element of the list. -/
def renderTorrent (t : JSVal) : Except JSVal Html := do
  let filename ← t.getProp "filename"
  let nameText ← (filename.orElse (.str "Unknown File")).toText
  let info_hash ← t.getProp "info_hash"
  let hashText ← (info_hash.orElse (.str "N/A")).toText
  let size ← t.getProp "size"
  let sizeHtml ← sizeLabel size
  let uploaded_at ← t.getProp "uploaded_at"
  let uploaded ← localeTimeOf uploaded_at
  pure ([
    .text ("\n            <li>\n                <strong>" ++ nameText ++ "</strong><br>\n" ++
      "                <small>Hash: " ++ hashText ++ "</small><br>\n" ++
      "                <small>Size: ")] ++
    sizeHtml ++
    [ .text "</small><br>\n                <small>Uploaded: ",
      uploaded,
      .text "</small>\n            </li>\n        "])

/-- The expression `list.map(render).join("")` on the elements of an array: the
callback runs on the elements in order, and the first throw aborts. -/
def renderAll (render : JSVal → Except JSVal Html) : List JSVal → Except JSVal Html
  | [] => .ok []
  | v :: rest =>
    match render v with
    | .error e => .error e
    | .ok h =>
      match renderAll render rest with
      | .error e => .error e
      | .ok hs => .ok (h ++ hs)

/-- The expression `list.map(render).join("")`: only an array has `map`. -/
def mapJoin (render : JSVal → Except JSVal Html) (list : JSVal) : Except JSVal Html :=
  match list with
  | .arr items => renderAll render items
  | _ => .error (typeError "map is not a function")

/-- The test `!list || list.length === 0`. -/
def absentOrEmpty (list : JSVal) : Bool :=
  !list.truthy || list.lengthIsZero

/-- `displayPeers(peers)`. -/
def displayPeers (peers : JSVal) : JS Unit := do
  if absentOrEmpty peers then
    modify fun s => { s with peersDiv := noPeersHtml }
  else do
    let html ← lift (mapJoin renderPeer peers)
    modify fun s => { s with peersDiv := html }

/-- `displayTorrents(torrents)`. -/
def displayTorrents (torrents : JSVal) : JS Unit := do
  if absentOrEmpty torrents then
    modify fun s => { s with torrentsDiv := noTorrentsHtml }
  else do
    let html ← lift (mapJoin renderTorrent torrents)
    modify fun s => { s with torrentsDiv := html }

/-! ## Outbound commands -/

/-- `socket.emit(event, payload)` on the socket the variable refers to. -/
def emit (event : String) (payload : Option JSVal) : JS Unit := fun s =>
  match s.socket with
  | none => .thrown (typeError "cannot read property emit of null") s
  | some i => .ok () { s with sent := s.sent ++ [⟨i, event, payload⟩] }

/-- The object `data` built by `registerAsPeer`. -/
def registerPayload (peerId : String) : JSVal :=
  .obj [("peer_id", .str peerId), ("port", .num 6881), ("ip_address", .str "127.0.0.1"),
    ("client_type", .str "vm-client"),
    ("capabilities", .arr [.str "p2p-sharing", .str "webseed"])]

/-- `registerAsPeer()`. -/
def registerAsPeer : JS Unit := do
  let s ← get
  if !socketConnected s then
    log "❌ Not connected" (.str "error")
  else do
    log ("👤 Registering peer: " ++ s.peerId) (.str "info")
    emit "register_peer" (some (registerPayload s.peerId))

/-- `getPeers()`. -/
def getPeers : JS Unit := do
  let s ← get
  if !socketConnected s then
    log "❌ Not connected" (.str "error")
  else do
    log "🔍 Requesting peers..." (.str "info")
    emit "get_peers" none

/-- `getTorrents()`. -/
def getTorrents : JS Unit := do
  let s ← get
  if !socketConnected s then
    log "❌ Not connected" (.str "error")
  else do
    log "📁 Requesting torrents..." (.str "info")
    emit "get_torrents" none

/-- `testConnection()`. -/
def testConnection : JS Unit := do
  let s ← get
  if !socketConnected s then
    log "❌ Not connected" (.str "error")
  else do
    log "🔧 Testing connection..." (.str "info")
    let t ← get
    emit "test_connection" (some (.obj [("test", .bool true), ("time", .num t.now)]))

/-- The test `name.endsWith(suffix)`: the characters of `suffix` are the last
characters of `name`. -/
def endsWith (name suffix : String) : Bool :=
  suffix.toList.isSuffixOf name.toList

/-- `uploadTorrent()` up to its first `await`: the checks and the `fetch`. -/
def uploadTorrent : JS Unit := do
  let s ← get
  if !socketConnected s then
    log "❌ Not connected" (.str "error")
  else
    match s.selectedFile with
    | none => log "❌ Select a .torrent file first" (.str "error")
    | some file =>
      if !endsWith file.name ".torrent" then
        log "❌ Invalid file type" (.str "error")
      else do
        log ("📤 Uploading " ++ file.name ++ "...") (.str "info")
        modify fun s => { s with
          requests := s.requests ++ [⟨"/upload-torrent", "POST", "torrent", file⟩] }

/-- How the two awaited promises of `uploadTorrent` settle: `fetch` or
`response.json()` rejects with an error value, or the body parses to `data`. -/
inductive FetchOutcome where
  | rejected (err : JSVal)
  | responded (data : JSVal)

/-- `uploadTorrent()` after its `await`s: the body of the `try` and the
`catch`. -/
def uploadSettled (outcome : FetchOutcome) : JS Unit :=
  JS.tryCatch
    (match outcome with
      | .rejected err => JS.throw err
      | .responded data => do
        let success ← lift (data.getProp "success")
        if success.truthy then do
          let message ← lift (data.getProp "message")
          let text ← lift message.toText
          log ("✅ " ++ text) (.str "success")
          getTorrents
        else do
          let error ← lift (data.getProp "error")
          let text ← lift error.toText
          log ("❌ Upload failed: " ++ text) (.str "error"))
    (fun err => do
      let message ← lift (err.getProp "message")
      let text ← lift message.toText
      log ("❌ Upload error: " ++ text) (.str "error"))

/-! ## Event handlers registered by `connectToTracker` -/

/-- The handler of `connect`. -/
def onConnect : JS Unit := do
  let s ← get
  match currentSession s with
  | none => JS.throw (typeError "cannot read property id of null")
  | some sess =>
    log ("✅ Connected! Socket ID: " ++ sess.idText) (.str "success")
    updateStatus "Connected to Tracker" "green"
    updateSocketStatus "✅ Connected" true
    updateButtonStates true
    registerAsPeer

/-- The handler of `disconnect`. -/
def onDisconnect (reason : JSVal) : JS Unit := do
  let text ← lift reason.toText
  log ("❌ Disconnected: " ++ text) (.str "error")
  updateStatus "Disconnected" "red"
  updateSocketStatus "❌ Disconnected" false
  updateButtonStates false

/-- The handler of `connect_error`. -/
def onConnectError (err : JSVal) : JS Unit := do
  let message ← lift (err.getProp "message")
  let text ← lift message.toText
  log ("❌ Connection failed: " ++ text) (.str "error")
  updateStatus "Connection Failed" "red"
  updateSocketStatus "❌ Connection Error" false

/-- The handler of `server_message`. -/
def onServerMessage (data : JSVal) : JS Unit := do
  let message ← lift (data.getProp "message")
  let text ← lift message.toText
  let type ← lift (data.getProp "type")
  log ("📨 " ++ text) (type.orElse (.str "info"))

/-- The handler of `peer_registered`. -/
def onPeerRegistered (data : JSVal) : JS Unit := do
  let peer_id ← lift (data.getProp "peer_id")
  let text ← lift peer_id.toText
  log ("👤 Registered as peer: " ++ text) (.str "success")

/-- The handler of `peers_updated`. -/
def onPeersUpdated (data : JSVal) : JS Unit := do
  let count ← lift (data.getProp "count")
  let text ← lift count.toText
  log ("📊 Peer list updated (" ++ text ++ ")") (.str "info")
  let shown ← lift count.toTextContent
  modify fun s => { s with peerCount := shown }
  let peers ← lift (data.getProp "peers")
  displayPeers peers

/-- The handler of `torrents_list`. -/
def onTorrentsList (data : JSVal) : JS Unit := do
  let count ← lift (data.getProp "count")
  let text ← lift count.toText
  log ("📁 Torrents updated (" ++ text ++ ")") (.str "info")
  let shown ← lift count.toTextContent
  modify fun s => { s with torrentCount := shown }
  let torrents ← lift (data.getProp "torrents")
  displayTorrents torrents

/-! ## Opening and replacing the session -/

/-- Apply `f` to the socket at index `i`, if there is one. -/
def mapSession (i : Nat) (f : Session → Session) (l : List Session) : List Session :=
  match l[i]? with
  | some x => l.set i (f x)
  | none => l

/-- What `disconnect()` does to a connected socket. -/
def closeConnected (x : Session) : Session :=
  { x with connected := false, id := none, closed := true }

/-- What `disconnect()` does to a socket that is not connected. -/
def closeIdle (x : Session) : Session :=
  { x with closed := true }

/-- `socket.disconnect()` on the socket the variable refers to.  A connected
socket is closed by the library, which marks it disconnected, forgets its id and
fires its `disconnect` listeners with the reason `io client disconnect` before
returning. -/
def socketDisconnect : JS Unit := do
  let s ← get
  match s.socket with
  | none => JS.throw (typeError "cannot read property disconnect of null")
  | some i =>
    if socketConnected s then do
      modify (fun s => { s with sessions := mapSession i closeConnected s.sessions })
      onDisconnect (.str "io client disconnect")
    else
      modify (fun s => { s with sessions := mapSession i closeIdle s.sessions })

/-- The socket returned by `io("http://localhost:5001", options)`: not yet
connected, without id, no failed attempt so far. -/
def trackerSession : Session where
  url := "http://localhost:5001"
  reconnection := true
  reconnectionAttempts := 5
  reconnectionDelay := 1000
  transports := ["websocket"]
  connected := false
  id := none
  closed := false
  attempts := 0

/-- `connectToTracker()`.  The seven `socket.on` registrations attach to the new
socket the handlers above, which read the variable `socket`, not the socket they
are attached to. -/
def connectToTracker : JS Unit := do
  let s ← get
  if !s.ioLoaded then do
    log "❌ Socket.IO not loaded." (.str "error")
    updateSocketStatus "❌ Socket.IO Missing" false
  else do
    (if socketConnected s then do
      log "🔄 Reconnecting..." (.str "info")
      socketDisconnect
    else pure ())
    log "📡 Connecting to tracker..." (.str "info")
    updateStatus "Connecting..." "orange"
    updateSocketStatus "🔄 Connecting..." false
    modify fun s => { s with
      socket := some s.sessions.length,
      sessions := s.sessions ++ [trackerSession] }

/-! ## The environment: transport events, user actions, the clock -/

/-- The events the script listens to. -/
inductive Inbound where
  | connect (sid : String)
  | disconnect (reason : JSVal)
  | connect_error (err : JSVal)
  | server_message (data : JSVal)
  | peer_registered (data : JSVal)
  | peers_updated (data : JSVal)
  | torrents_list (data : JSVal)

/-- The listener the script registered for an event. -/
def handle : Inbound → JS Unit
  | .connect _ => onConnect
  | .disconnect reason => onDisconnect reason
  | .connect_error err => onConnectError err
  | .server_message data => onServerMessage data
  | .peer_registered data => onPeerRegistered data
  | .peers_updated data => onPeersUpdated data
  | .torrents_list data => onTorrentsList data

/-- What the library does to its socket before it fires the listeners; a
successful connection also resets the count of reconnection attempts. -/
def libraryEffect : Inbound → Session → Session
  | .connect sid, x => { x with connected := true, id := some sid, attempts := 0 }
  | .disconnect _, x => { x with connected := false, id := none }
  | _, x => x

/-- Modelled from the spec: the reconnection policy of the transport library
(Socket.IO, which is not among the sources of this repository), as section 4.1
states it.  The library makes a further automatic reconnection attempt only on a
socket with reconnection enabled that is neither connected nor closed on
request, and only while fewer than `reconnectionAttempts` automatic attempts
have been made; once the budget is exceeded it makes none. -/
def mayReconnect (x : Session) : Bool :=
  x.reconnection && !x.connected && !x.closed && decide (x.attempts < x.reconnectionAttempts)

/-- Modelled from the spec: the reconnection timer of the transport library
fires for a socket; an automatic attempt starts if the policy allows one, and
nothing happens otherwise. -/
def reconnectAttempt (x : Session) : Session :=
  if mayReconnect x then { x with attempts := x.attempts + 1 } else x

/-- The library delivers `ev` on the socket at index `i`. -/
def deliver (i : Nat) (ev : Inbound) : JS Unit := do
  let s ← get
  if i < s.sessions.length then do
    modify fun s => { s with sessions := mapSession i (libraryEffect ev) s.sessions }
    handle ev
  else
    pure ()

/-- Everything that can happen to the page after startup. -/
inductive Action where
  /-- click on `connectBtn`, or the startup timer firing -/
  | connectToTracker
  | registerAsPeer
  | getPeers
  | getTorrents
  | testConnection
  | uploadTorrent
  | clearLogs
  | debugConnection
  /-- the user changes the selection of the file input -/
  | selectFile (file : Option File)
  /-- the clock advances -/
  | clock (t : SafeInt)
  /-- the library delivers an event on one of the sockets -/
  | transport (i : Nat) (ev : Inbound)
  /-- the reconnection timer of the library fires for one of the sockets -/
  | reconnectTimer (i : Nat)
  /-- a pending upload settles -/
  | uploadSettled (outcome : FetchOutcome)

/-- The computation an action runs. -/
def perform : Action → JS Unit
  | .connectToTracker => connectToTracker
  | .registerAsPeer => registerAsPeer
  | .getPeers => getPeers
  | .getTorrents => getTorrents
  | .testConnection => testConnection
  | .uploadTorrent => uploadTorrent
  | .clearLogs => clearLogs
  | .debugConnection => debugConnection
  | .selectFile file => modify fun s => { s with selectedFile := file }
  | .clock t => modify fun s => { s with now := t }
  | .transport i ev => deliver i ev
  | .reconnectTimer i =>
    modify fun s => { s with sessions := mapSession i reconnectAttempt s.sessions }
  | .uploadSettled outcome => uploadSettled outcome

/-- The state after an action; an error thrown by a listener ends that listener
only, the page carries on from the state reached. -/
def step (s : State) (a : Action) : State := (perform a s).state

/-- The state after a sequence of actions. -/
def run (s : State) (actions : List Action) : State := actions.foldl step s

/-- The page as loaded, before the script runs: `peerId` is the identity drawn
by `"VM-" + Math.random().toString(36).substr(2, 8)`, of which `token` is the
random part. -/
def page (token : String) (ioLoaded : Bool) (now : SafeInt) : State where
  peerId := "VM-" ++ token
  ioLoaded := ioLoaded
  now := now
  socket := none
  sessions := []
  sent := []
  requests := []
  selectedFile := none
  statusText := ""
  statusClass := ""
  socketStatusHtml := ""
  socketStatusClass := ""
  logs := []
  peerCount := ""
  torrentCount := ""
  peersDiv := []
  torrentsDiv := []
  commandsDisabled := false
  connectBtnHtml := ""

/-- The statements under `Auto Initialization`; the timer they arm fires later
as the action `connectToTracker`. -/
def bootScript : JS Unit := do
  let s ← get
  log "🚀 Client Started" (.str "info")
  log ("Peer ID: " ++ s.peerId) (.str "info")
  updateButtonStates false

/-- The state when the `DOMContentLoaded` listener returns. -/
def startup (token : String) (ioLoaded : Bool) (now : SafeInt) : State :=
  (bootScript (page token ioLoaded now)).state

/-- The states the page can be in. -/
def Reachable (token : String) (s : State) : Prop :=
  ∃ ioLoaded now actions, s = run (startup token ioLoaded now) actions

/-! ## Vocabulary of the properties -/

/-- The state `s` with one notice of the given severity appended to the log and
nothing else changed. -/
def withNotice (s : State) (severity message : String) : State :=
  { s with logs := s.logs ++
      [⟨"log " ++ severity,
        [.text "[", .localeTime (.num s.now), .text "] ", .text message]⟩] }

/-- The request `uploadTorrent` submits for `file`. -/
def uploadRequest (file : File) : UploadRequest :=
  ⟨"/upload-torrent", "POST", "torrent", file⟩

/-- A state right after startup, used to exercise the results below: identity
`VM-ab12cd34`, library loaded, clock at 1000. -/
def sampleStart : State := startup "ab12cd34" true 1000

/-- The sample state after the startup timer fired and the session connected
with id `sid-1`. -/
def sampleConnected : State :=
  run sampleStart [.connectToTracker, .transport 0 (.connect "sid-1")]

/-- The sample connected state with the file `movie.torrent` selected. -/
def sampleWithFile : State :=
  step sampleConnected (.selectFile (some ⟨"movie.torrent"⟩))

/-- What holds of every state the page can reach when the identity drawn at
startup is `pid`: the identity is unchanged, the variable `socket` refers to a
socket that exists, and every `register_peer` emitted so far carried the
payload built from `pid`. -/
def Inv (pid : String) (s : State) : Prop :=
  s.peerId = pid ∧
  (∀ i, s.socket = some i → i < s.sessions.length) ∧
  ∀ e ∈ s.sent, e.event = "register_peer" → e.payload = some (registerPayload pid)

/-- The computation `m` maintains `Inv pid`, whether it completes or throws. -/
def Keeps {α : Type} (pid : String) (m : JS α) : Prop :=
  ∀ s, Inv pid s → Inv pid (m s).state

/-- The sample state after the startup timer fired: one session, still
connecting. -/
def sampleOpened : State := run sampleStart [.connectToTracker]

/-- The sample state after `connectToTracker` ran a second time while the first
session was still connecting. -/
def sampleTwoSessions : State := run sampleStart [.connectToTracker, .connectToTracker]

/-- The time stamp of a participant record: a date string or an
epoch-millisecond count. -/
inductive Stamp where
  | date (s : String)
  | millis (n : SafeInt)

/-- The wire form of a time stamp. -/
def Stamp.toJS : Stamp → JSVal
  | .date s => .str s
  | .millis n => .num n

/-- A participant record as the wire contract gives it in `peers_updated`: the
identity and address are strings, the port is a number. -/
structure ParticipantRecord where
  peer_id : String
  ip : String
  port : SafeInt
  connected_at : Stamp

/-- The wire form of a participant record. -/
def ParticipantRecord.toJS (p : ParticipantRecord) : JSVal :=
  .obj [("peer_id", .str p.peer_id), ("ip", .str p.ip), ("port", .num p.port),
    ("connected_at", p.connected_at.toJS)]

/-- A participant-list snapshot: the payload `count`, `peers` of
`peers_updated`. -/
structure PeersSnapshot where
  count : SafeInt
  peers : List ParticipantRecord

/-- The wire form of a participant-list snapshot. -/
def PeersSnapshot.toJS (x : PeersSnapshot) : JSVal :=
  .obj [("count", .num x.count), ("peers", .arr (x.peers.map ParticipantRecord.toJS))]

/-- The sample state after the connected session was lost, with the
`register_peer` of the automatic registration already sent. -/
def sampleDisconnected : State :=
  step sampleConnected (.transport 0 (.disconnect (.str "transport close")))

/-- The connection states the specification names. -/
inductive ConnectionState where
  | Disconnected
  | Connecting
  | Connected
  | ReconnectExhausted
  | Errored
  deriving DecidableEq

/-- Modelled from the spec: the `ConnectionState` of the Connection Manager
(sections 3 and 4.1), which the script does not store; it is read off the
current socket, whose reconnection the transport library manages, and the
status the listeners last wrote.  A connected socket is `Connected`; after
`connectToTracker` the state is `Connecting`; after an establishment failure it
is `Errored` while the library may still make an automatic attempt and
`ReconnectExhausted` once the attempt budget is spent; otherwise it is
`Disconnected`. -/
def connectionState (s : State) : ConnectionState :=
  match currentSession s with
  | none => .Disconnected
  | some x =>
    if x.connected then .Connected
    else if s.statusText = "Connecting..." then .Connecting
    else if s.statusText = "Connection Failed" then
      (if mayReconnect x then .Errored else .ReconnectExhausted)
    else .Disconnected

/-- The library reports a failed connection attempt on socket `i`: the event
`connect_error` with an error object carrying `message`. -/
def attemptFailed (i : Nat) (message : String) : Action :=
  .transport i (.connect_error (.obj [("message", .str message)]))

/-- One automatic reconnection attempt on socket `i` per message, each started
by the reconnection timer and each failing with that message. -/
def failedRetries (i : Nat) (messages : List String) : List Action :=
  messages.flatMap fun m => [.reconnectTimer i, attemptFailed i m]

/-- The state after the first attempt on socket `i` failed with `first` and one
automatic reconnection attempt per further message failed. -/
def afterFailedAttempts (s : State) (i : Nat) (first : String) (messages : List String) :
    State :=
  run s (attemptFailed i first :: failedRetries i messages)

/-- The sample state after the first attempt and five automatic
reconnection attempts of the only session all failed. -/
def sampleExhausted : State :=
  run sampleOpened (attemptFailed 0 "websocket error" ::
    failedRetries 0 (List.replicate 5 "websocket error"))

/-- The value is neither `undefined` nor `null`. -/
def JSVal.present : JSVal → Bool
  | .undefined => false
  | .null => false
  | _ => true

/-- The member `key` of a present value, `undefined` when it has none. -/
def JSVal.field (v : JSVal) (key : String) : JSVal :=
  match v.getProp key with
  | .ok x => x
  | .error _ => .undefined

/-- A participant record `displayPeers` can render: it is neither absent nor
`null`, and its four members convert to text. -/
def JSVal.peerRenders (v : JSVal) : Bool :=
  v.present && (v.field "peer_id").printable && (v.field "ip").printable &&
    (v.field "port").printable && (v.field "connected_at").printable

/-- A resource record `displayTorrents` can render: it is neither absent nor
`null`, its filename and hash are falsy or convert to text, its size is falsy
or converts to a number, and its upload stamp converts to a date. -/
def JSVal.torrentRenders (v : JSVal) : Bool :=
  v.present &&
    (!(v.field "filename").truthy || (v.field "filename").printable) &&
    (!(v.field "info_hash").truthy || (v.field "info_hash").printable) &&
    (!(v.field "size").truthy || (v.field "size").printable) &&
    (v.field "uploaded_at").printable

/-- A list member the display functions can show, given which records render:
it is absent or otherwise falsy, or its `length` is the number 0, or it is an
array all of whose elements render. -/
def JSVal.rendersAsList (renders : JSVal → Bool) : JSVal → Bool
  | .undefined => true
  | .null => true
  | .bool b => !b
  | .num n => n.magnitude.val == 0
  | .str s => s == ""
  | .arr items => items.all renders
  | .obj fields =>
    match fields.lookup "length" with
    | some (.num n) => n.magnitude.val == 0
    | _ => false

/-- A severity `log` can print: a string, or a falsy value, which the handler
of `server_message` replaces by `info`. -/
def JSVal.usableSeverity : JSVal → Bool
  | .str _ => true
  | v => !v.truthy

/-- The events whose payload the listeners can process to the end. -/
def accepted : Inbound → Bool
  | .connect _ => true
  | .disconnect reason => reason.printable
  | .connect_error err => err.present && (err.field "message").printable
  | .server_message data =>
    data.present && (data.field "message").printable && (data.field "type").usableSeverity
  | .peer_registered data => data.present && (data.field "peer_id").printable
  | .peers_updated data =>
    data.present && (data.field "count").printable &&
      (data.field "peers").rendersAsList JSVal.peerRenders
  | .torrents_list data =>
    data.present && (data.field "count").printable &&
      (data.field "torrents").rendersAsList JSVal.torrentRenders

/-! ## Evaluation lemmas -/



theorem bind_run {α β : Type} (x : JS α) (f : α → JS β) (s : State) :
    (x >>= f) s = match x s with
      | .ok a s1 => f a s1
      | .thrown e s1 => .thrown e s1 := rfl

theorem pure_run {α : Type} (a : α) (s : State) : (pure a : JS α) s = .ok a s := rfl

theorem get_run (s : State) : JS.get s = .ok s s := rfl

theorem modify_run (f : State → State) (s : State) : JS.modify f s = .ok () (f s) := rfl

theorem log_str_run (message ty : String) (s : State) :
    log message (.str ty) s = .ok () (withNotice s ty message) := rfl

theorem emit_run (event : String) (payload : Option JSVal) (s : State) (i : Nat)
    (h : s.socket = some i) :
    emit event payload s = .ok () { s with sent := s.sent ++ [⟨i, event, payload⟩] } := by
  simp [emit, h]

theorem socketConnected_false_of (s : State)
    (h : currentSession s = none ∨
      ∃ sess, currentSession s = some sess ∧ sess.connected = false) :
    socketConnected s = false := by
  unfold socketConnected
  rcases h with h | ⟨sess, h, hc⟩
  · simp [h]
  · simp [h, hc]

theorem lift_ok_run {α : Type} (a : α) (s : State) :
    JS.lift (.ok a : Except JSVal α) s = .ok a s := rfl

theorem lift_error_run {α : Type} (e : JSVal) (s : State) :
    JS.lift (.error e : Except JSVal α) s = .thrown e s := rfl

theorem toText_str (text : String) : (JSVal.str text).toText = .ok text := rfl

theorem toText_of_printable (v : JSVal) (h : v.printable = true) :
    v.toText = .ok v.toStr := by
  simp [toText, h]

theorem toText_of_not_printable (v : JSVal) (h : v.printable = false) :
    v.toText = .error (typeError "cannot convert object to primitive value") := by
  simp [toText, h]

/-! ## Commands issued without a connected session (C1) -/

/-- C1. In a state where no session exists or the current session is not
connected, each of `registerAsPeer`, `getPeers`, `getTorrents`, `testConnection`
and `uploadTorrent` completes with the state changed by exactly one notice
`❌ Not connected` of severity `error`; in particular nothing is emitted and no
upload request is submitted. -/
theorem not_connected_commands_refuse (s : State)
    (h : currentSession s = none ∨
      ∃ sess, currentSession s = some sess ∧ sess.connected = false) :
    (registerAsPeer s = .ok () (withNotice s "error" "❌ Not connected") ∧
     getPeers s = .ok () (withNotice s "error" "❌ Not connected") ∧
     getTorrents s = .ok () (withNotice s "error" "❌ Not connected") ∧
     testConnection s = .ok () (withNotice s "error" "❌ Not connected") ∧
     uploadTorrent s = .ok () (withNotice s "error" "❌ Not connected")) ∧
    (withNotice s "error" "❌ Not connected").sent = s.sent ∧
    (withNotice s "error" "❌ Not connected").requests = s.requests := by
  have hc := socketConnected_false_of s h
  refine ⟨⟨?_, ?_, ?_, ?_, ?_⟩, rfl, rfl⟩
  · simp [registerAsPeer, bind_run, get_run, hc, log_str_run]
  · simp [getPeers, bind_run, get_run, hc, log_str_run]
  · simp [getTorrents, bind_run, get_run, hc, log_str_run]
  · simp [testConnection, bind_run, get_run, hc, log_str_run]
  · simp [uploadTorrent, bind_run, get_run, hc, log_str_run]

/-- C1 at the sample state right after startup, where no session exists. -/
theorem not_connected_commands_refuse_witness :
    currentSession sampleStart = none ∧
    ((registerAsPeer sampleStart = .ok () (withNotice sampleStart "error" "❌ Not connected") ∧
      getPeers sampleStart = .ok () (withNotice sampleStart "error" "❌ Not connected") ∧
      getTorrents sampleStart = .ok () (withNotice sampleStart "error" "❌ Not connected") ∧
      testConnection sampleStart = .ok () (withNotice sampleStart "error" "❌ Not connected") ∧
      uploadTorrent sampleStart = .ok () (withNotice sampleStart "error" "❌ Not connected")) ∧
     (withNotice sampleStart "error" "❌ Not connected").sent = sampleStart.sent ∧
     (withNotice sampleStart "error" "❌ Not connected").requests = sampleStart.requests) :=
  ⟨rfl, not_connected_commands_refuse sampleStart (Or.inl rfl)⟩

/-! ## Client-side filter of the upload (C10) -/

/-- C10. In a connected state `uploadTorrent` submits the upload request exactly
when a file is selected whose name ends with `.torrent`, and then submits that
file once; otherwise it completes with the state changed by exactly one notice
of severity `error`: nothing is submitted or emitted, and the session, its
connected flag and the displayed status are as before. -/
theorem upload_filter (s : State) (h : socketConnected s = true) :
    ((uploadTorrent s).state.requests ≠ s.requests ↔
      ∃ f, s.selectedFile = some f ∧ endsWith f.name ".torrent" = true) ∧
    (∀ f, s.selectedFile = some f → endsWith f.name ".torrent" = true →
      (uploadTorrent s).state.requests = s.requests ++ [uploadRequest f] ∧
      (uploadTorrent s).state.sent = s.sent) ∧
    ((¬ ∃ f, s.selectedFile = some f ∧ endsWith f.name ".torrent" = true) →
      (∃ message, uploadTorrent s = .ok () (withNotice s "error" message)) ∧
      (uploadTorrent s).state.requests = s.requests ∧
      (uploadTorrent s).state.sent = s.sent ∧
      (uploadTorrent s).state.socket = s.socket ∧
      (uploadTorrent s).state.sessions = s.sessions ∧
      (uploadTorrent s).state.statusText = s.statusText ∧
      socketConnected (uploadTorrent s).state = true) := by
  cases hf : s.selectedFile with
  | none =>
    have hr : uploadTorrent s =
        .ok () (withNotice s "error" "❌ Select a .torrent file first") := by
      simp [uploadTorrent, bind_run, get_run, h, hf, log_str_run]
    refine ⟨?_, ?_, ?_⟩
    · simp [hr, Res.state, withNotice]
    · intro f hsel; simp at hsel
    · intro _
      refine ⟨⟨_, hr⟩, ?_, ?_, ?_, ?_, ?_, ?_⟩ <;> rw [hr] <;> first | rfl | exact h
  | some file =>
    cases hn : endsWith file.name ".torrent" with
    | false =>
      have hr : uploadTorrent s = .ok () (withNotice s "error" "❌ Invalid file type") := by
        simp [uploadTorrent, bind_run, get_run, h, hf, hn, log_str_run]
      refine ⟨?_, ?_, ?_⟩
      · simp [hr, Res.state, withNotice, hn]
      · intro f hsel hname
        simp at hsel
        subst hsel
        simp [hn] at hname
      · intro _
        refine ⟨⟨_, hr⟩, ?_, ?_, ?_, ?_, ?_, ?_⟩ <;> rw [hr] <;> first | rfl | exact h
    | true =>
      have hr : uploadTorrent s = .ok ()
          { withNotice s "info" ("📤 Uploading " ++ file.name ++ "...") with
            requests := s.requests ++ [uploadRequest file] } := by
        simp [uploadTorrent, bind_run, get_run, h, hf, hn, log_str_run, modify_run,
          withNotice, uploadRequest]
      refine ⟨?_, ?_, ?_⟩
      · simp [hr, Res.state, hn]
      · intro f hsel _
        simp at hsel
        subst hsel
        rw [hr]
        exact ⟨rfl, rfl⟩
      · intro hno
        exact absurd ⟨file, rfl, hn⟩ hno

/-- C10 at the sample connected state with `movie.torrent` selected: the request
is submitted. -/
theorem upload_filter_witness :
    socketConnected sampleWithFile = true ∧
    ((uploadTorrent sampleWithFile).state.requests ≠ sampleWithFile.requests ↔
      ∃ f, sampleWithFile.selectedFile = some f ∧ endsWith f.name ".torrent" = true) ∧
    sampleWithFile.selectedFile = some ⟨"movie.torrent"⟩ ∧
    (uploadTorrent sampleWithFile).state.requests =
      sampleWithFile.requests ++ [uploadRequest ⟨"movie.torrent"⟩] :=
  ⟨rfl, (upload_filter sampleWithFile rfl).1, rfl,
    ((upload_filter sampleWithFile rfl).2.1 ⟨"movie.torrent"⟩ rfl (by decide)).1⟩

/-! ## What every reachable state satisfies -/

theorem keeps_pure {α : Type} (pid : String) (a : α) : Keeps pid (pure a : JS α) :=
  fun _ h => h

theorem keeps_throw {α : Type} (pid : String) (e : JSVal) : Keeps pid (JS.throw e : JS α) :=
  fun _ h => h

theorem keeps_get (pid : String) : Keeps pid JS.get :=
  fun _ h => h

theorem keeps_lift {α : Type} (pid : String) (x : Except JSVal α) : Keeps pid (JS.lift x) := by
  cases x with
  | ok a => exact fun _ h => h
  | error e => exact fun _ h => h

theorem keeps_bind {α β : Type} (pid : String) (m : JS α) (f : α → JS β)
    (hm : Keeps pid m) (hf : ∀ a, Keeps pid (f a)) : Keeps pid (m >>= f) := by
  intro s hs
  have h1 := hm s hs
  rw [bind_run]
  cases hr : m s with
  | ok a s1 =>
    rw [hr] at h1
    exact hf a s1 h1
  | thrown e s1 =>
    rw [hr] at h1
    exact h1

theorem keeps_tryCatch {α : Type} (pid : String) (body : JS α) (handler : JSVal → JS α)
    (hb : Keeps pid body) (hh : ∀ e, Keeps pid (handler e)) :
    Keeps pid (JS.tryCatch body handler) := by
  intro s hs
  have h1 := hb s hs
  unfold JS.tryCatch
  cases hr : body s with
  | ok a s1 =>
    rw [hr] at h1
    exact h1
  | thrown e s1 =>
    rw [hr] at h1
    exact hh e s1 h1

theorem keeps_modify (pid : String) (f : State → State)
    (hf : ∀ s, Inv pid s → Inv pid (f s)) : Keeps pid (JS.modify f) :=
  fun s hs => hf s hs

theorem keeps_log (pid : String) (message : String) (type : JSVal) :
    Keeps pid (log message type) := by
  intro s hs
  unfold log
  dsimp only
  split
  · exact hs
  · split <;> exact hs

theorem keeps_updateStatus (pid : String) (text color : String) :
    Keeps pid (updateStatus text color) :=
  fun _ hs => hs

theorem keeps_updateSocketStatus (pid : String) (message : String) (isGood : Bool) :
    Keeps pid (updateSocketStatus message isGood) :=
  fun _ hs => hs

theorem keeps_updateButtonStates (pid : String) (connected : Bool) :
    Keeps pid (updateButtonStates connected) :=
  fun _ hs => hs

theorem socket_of_connected (s : State) (h : socketConnected s = true) :
    ∃ i, s.socket = some i := by
  unfold socketConnected currentSession at h
  cases hs : s.socket with
  | none => simp [hs] at h
  | some i => exact ⟨i, rfl⟩

theorem keeps_emit (pid : String) (event : String) (payload : Option JSVal)
    (h : event = "register_peer" → payload = some (registerPayload pid)) :
    Keeps pid (emit event payload) := by
  intro s hs
  rcases Option.eq_none_or_eq_some s.socket with hsock | ⟨i, hsock⟩
  · have hr : emit event payload s =
        .thrown (typeError "cannot read property emit of null") s := by
      simp [emit, hsock]
    rw [hr]
    exact hs
  · rw [emit_run event payload s i hsock]
    obtain ⟨h1, h2, h3⟩ := hs
    refine ⟨h1, h2, ?_⟩
    intro e he
    simp only [Res.state, List.mem_append, List.mem_singleton] at he
    rcases he with he | he
    · exact h3 e he
    · subst he
      exact h

theorem length_mapSession (i : Nat) (f : Session → Session) (l : List Session) :
    (mapSession i f l).length = l.length := by
  unfold mapSession
  split <;> simp

theorem keeps_mapSession (pid : String) (i : Nat) (f : Session → Session) :
    Keeps pid (JS.modify fun s => { s with sessions := mapSession i f s.sessions }) := by
  intro s hs
  obtain ⟨h1, h2, h3⟩ := hs
  refine ⟨h1, ?_, h3⟩
  intro j hj
  simp only [modify_run, Res.state, length_mapSession]
  exact h2 j hj

/-- A guarded command: the shape shared by the five commands. -/
theorem guarded_run (body : State → JS Unit) (s : State) :
    (JS.get >>= fun s0 =>
      if (!socketConnected s0) = true then log "❌ Not connected" (.str "error")
      else body s0) s =
    if socketConnected s = true then body s s
    else .ok () (withNotice s "error" "❌ Not connected") := by
  rw [bind_run, get_run]
  cases hc : socketConnected s <;> simp [log_str_run, hc]

theorem keeps_guarded (pid : String) (body : State → JS Unit)
    (hb : ∀ s, socketConnected s = true → Inv pid s → Inv pid (body s s).state) :
    Keeps pid (JS.get >>= fun s0 =>
      if (!socketConnected s0) = true then log "❌ Not connected" (.str "error")
      else body s0) := by
  intro s hs
  rw [guarded_run]
  cases hc : socketConnected s with
  | false => exact hs
  | true => exact hb s hc hs

theorem keeps_registerAsPeer (pid : String) : Keeps pid registerAsPeer := by
  apply keeps_guarded
  intro s _ hs
  exact keeps_bind pid _ _ (keeps_log pid _ _)
    (fun _ => keeps_emit pid _ _ (fun _ => by rw [hs.1])) s hs

theorem keeps_getPeers (pid : String) : Keeps pid getPeers := by
  apply keeps_guarded
  intro s _ hs
  exact keeps_bind pid _ _ (keeps_log pid _ _)
    (fun _ => keeps_emit pid _ _ (fun h => by simp at h)) s hs

theorem keeps_getTorrents (pid : String) : Keeps pid getTorrents := by
  apply keeps_guarded
  intro s _ hs
  exact keeps_bind pid _ _ (keeps_log pid _ _)
    (fun _ => keeps_emit pid _ _ (fun h => by simp at h)) s hs

theorem keeps_testConnection (pid : String) : Keeps pid testConnection := by
  apply keeps_guarded
  intro s _ hs
  exact keeps_bind pid _ _ (keeps_log pid _ _)
    (fun _ => keeps_bind pid _ _ (keeps_get pid)
      (fun _ => keeps_emit pid _ _ (fun h => by simp at h))) s hs

theorem keeps_uploadTorrent (pid : String) : Keeps pid uploadTorrent := by
  apply keeps_guarded
  intro s _ hs
  cases hf : s.selectedFile with
  | none => exact keeps_log pid _ _ s hs
  | some file =>
    simp only []
    split
    · exact keeps_log pid _ _ s hs
    · refine keeps_bind pid _ _ (keeps_log pid _ _) (fun _ => ?_) s hs
      exact fun _ ht => ht

theorem keeps_displayPeers (pid : String) (peers : JSVal) : Keeps pid (displayPeers peers) := by
  unfold displayPeers
  split
  · exact fun _ ht => ht
  · refine keeps_bind pid _ _ (keeps_lift pid _) (fun _ => ?_)
    exact fun _ ht => ht

theorem keeps_displayTorrents (pid : String) (torrents : JSVal) :
    Keeps pid (displayTorrents torrents) := by
  unfold displayTorrents
  split
  · exact fun _ ht => ht
  · refine keeps_bind pid _ _ (keeps_lift pid _) (fun _ => ?_)
    exact fun _ ht => ht

theorem keeps_onConnect (pid : String) : Keeps pid onConnect := by
  unfold onConnect
  refine keeps_bind pid _ _ (keeps_get pid) (fun s0 => ?_)
  cases currentSession s0 with
  | none => exact keeps_throw pid _
  | some sess =>
    refine keeps_bind pid _ _ (keeps_log pid _ _) (fun _ => ?_)
    refine keeps_bind pid _ _ (keeps_updateStatus pid _ _) (fun _ => ?_)
    refine keeps_bind pid _ _ (keeps_updateSocketStatus pid _ _) (fun _ => ?_)
    refine keeps_bind pid _ _ (keeps_updateButtonStates pid _) (fun _ => ?_)
    exact keeps_registerAsPeer pid

theorem keeps_onDisconnect (pid : String) (reason : JSVal) : Keeps pid (onDisconnect reason) := by
  unfold onDisconnect
  refine keeps_bind pid _ _ (keeps_lift pid _) (fun _ => ?_)
  refine keeps_bind pid _ _ (keeps_log pid _ _) (fun _ => ?_)
  refine keeps_bind pid _ _ (keeps_updateStatus pid _ _) (fun _ => ?_)
  refine keeps_bind pid _ _ (keeps_updateSocketStatus pid _ _) (fun _ => ?_)
  exact keeps_updateButtonStates pid _

theorem keeps_onConnectError (pid : String) (err : JSVal) : Keeps pid (onConnectError err) := by
  unfold onConnectError
  refine keeps_bind pid _ _ (keeps_lift pid _) (fun _ => ?_)
  refine keeps_bind pid _ _ (keeps_lift pid _) (fun _ => ?_)
  refine keeps_bind pid _ _ (keeps_log pid _ _) (fun _ => ?_)
  refine keeps_bind pid _ _ (keeps_updateStatus pid _ _) (fun _ => ?_)
  exact keeps_updateSocketStatus pid _ _

theorem keeps_onServerMessage (pid : String) (data : JSVal) :
    Keeps pid (onServerMessage data) := by
  unfold onServerMessage
  refine keeps_bind pid _ _ (keeps_lift pid _) (fun _ => ?_)
  refine keeps_bind pid _ _ (keeps_lift pid _) (fun _ => ?_)
  refine keeps_bind pid _ _ (keeps_lift pid _) (fun _ => ?_)
  exact keeps_log pid _ _

theorem keeps_onPeerRegistered (pid : String) (data : JSVal) :
    Keeps pid (onPeerRegistered data) := by
  unfold onPeerRegistered
  refine keeps_bind pid _ _ (keeps_lift pid _) (fun _ => ?_)
  refine keeps_bind pid _ _ (keeps_lift pid _) (fun _ => ?_)
  exact keeps_log pid _ _

theorem keeps_onPeersUpdated (pid : String) (data : JSVal) :
    Keeps pid (onPeersUpdated data) := by
  unfold onPeersUpdated
  refine keeps_bind pid _ _ (keeps_lift pid _) (fun _ => ?_)
  refine keeps_bind pid _ _ (keeps_lift pid _) (fun _ => ?_)
  refine keeps_bind pid _ _ (keeps_log pid _ _) (fun _ => ?_)
  refine keeps_bind pid _ _ (keeps_lift pid _) (fun _ => ?_)
  refine keeps_bind pid _ _ (fun _ ht => ht) (fun _ => ?_)
  refine keeps_bind pid _ _ (keeps_lift pid _) (fun _ => ?_)
  exact keeps_displayPeers pid _

theorem keeps_onTorrentsList (pid : String) (data : JSVal) :
    Keeps pid (onTorrentsList data) := by
  unfold onTorrentsList
  refine keeps_bind pid _ _ (keeps_lift pid _) (fun _ => ?_)
  refine keeps_bind pid _ _ (keeps_lift pid _) (fun _ => ?_)
  refine keeps_bind pid _ _ (keeps_log pid _ _) (fun _ => ?_)
  refine keeps_bind pid _ _ (keeps_lift pid _) (fun _ => ?_)
  refine keeps_bind pid _ _ (fun _ ht => ht) (fun _ => ?_)
  refine keeps_bind pid _ _ (keeps_lift pid _) (fun _ => ?_)
  exact keeps_displayTorrents pid _

theorem keeps_handle (pid : String) (ev : Inbound) : Keeps pid (handle ev) := by
  cases ev with
  | connect sid => exact keeps_onConnect pid
  | disconnect reason => exact keeps_onDisconnect pid reason
  | connect_error err => exact keeps_onConnectError pid err
  | server_message data => exact keeps_onServerMessage pid data
  | peer_registered data => exact keeps_onPeerRegistered pid data
  | peers_updated data => exact keeps_onPeersUpdated pid data
  | torrents_list data => exact keeps_onTorrentsList pid data

theorem keeps_deliver (pid : String) (i : Nat) (ev : Inbound) : Keeps pid (deliver i ev) := by
  unfold deliver
  refine keeps_bind pid _ _ (keeps_get pid) (fun s0 => ?_)
  split
  · exact keeps_bind pid _ _ (keeps_mapSession pid i _) (fun _ => keeps_handle pid ev)
  · exact keeps_pure pid _

theorem keeps_socketDisconnect (pid : String) : Keeps pid socketDisconnect := by
  unfold socketDisconnect
  refine keeps_bind pid _ _ (keeps_get pid) (fun s0 => ?_)
  cases s0.socket with
  | none => exact keeps_throw pid _
  | some i =>
    simp only []
    split
    · exact keeps_bind pid _ _ (keeps_mapSession pid i _) (fun _ => keeps_onDisconnect pid _)
    · exact keeps_mapSession pid i _

theorem keeps_connectToTracker (pid : String) : Keeps pid connectToTracker := by
  unfold connectToTracker
  refine keeps_bind pid _ _ (keeps_get pid) (fun s0 => ?_)
  split
  · exact keeps_bind pid _ _ (keeps_log pid _ _) (fun _ => keeps_updateSocketStatus pid _ _)
  · refine keeps_bind pid _ _ ?_ (fun _ => ?_)
    · split
      · exact keeps_bind pid _ _ (keeps_log pid _ _) (fun _ => keeps_socketDisconnect pid)
      · exact keeps_pure pid _
    · refine keeps_bind pid _ _ (keeps_log pid _ _) (fun _ => ?_)
      refine keeps_bind pid _ _ (keeps_updateStatus pid _ _) (fun _ => ?_)
      refine keeps_bind pid _ _ (keeps_updateSocketStatus pid _ _) (fun _ => ?_)
      intro s hs
      obtain ⟨h1, _, h3⟩ := hs
      refine ⟨h1, ?_, h3⟩
      intro j hj
      simp only [modify_run, Res.state, Option.some.injEq] at hj
      simp only [modify_run, Res.state, List.length_append, List.length_singleton]
      omega

theorem keeps_uploadSettled (pid : String) (outcome : FetchOutcome) :
    Keeps pid (uploadSettled outcome) := by
  unfold uploadSettled
  refine keeps_tryCatch pid _ _ ?_ (fun err => ?_)
  · cases outcome with
    | rejected err => exact keeps_throw pid _
    | responded data =>
      refine keeps_bind pid _ _ (keeps_lift pid _) (fun success => ?_)
      split
      · refine keeps_bind pid _ _ (keeps_lift pid _) (fun _ => ?_)
        refine keeps_bind pid _ _ (keeps_lift pid _) (fun _ => ?_)
        exact keeps_bind pid _ _ (keeps_log pid _ _) (fun _ => keeps_getTorrents pid)
      · refine keeps_bind pid _ _ (keeps_lift pid _) (fun _ => ?_)
        refine keeps_bind pid _ _ (keeps_lift pid _) (fun _ => ?_)
        exact keeps_log pid _ _
  · refine keeps_bind pid _ _ (keeps_lift pid _) (fun _ => ?_)
    refine keeps_bind pid _ _ (keeps_lift pid _) (fun _ => ?_)
    exact keeps_log pid _ _

theorem keeps_clearLogs (pid : String) : Keeps pid clearLogs := by
  unfold clearLogs
  exact keeps_bind pid _ _ (fun _ ht => ht) (fun _ => keeps_log pid _ _)

theorem keeps_debugConnection (pid : String) : Keeps pid debugConnection := by
  unfold debugConnection
  refine keeps_bind pid _ _ (keeps_get pid) (fun _ => ?_)
  refine keeps_bind pid _ _ (keeps_log pid _ _) (fun _ => ?_)
  refine keeps_bind pid _ _ (keeps_log pid _ _) (fun _ => ?_)
  refine keeps_bind pid _ _ (keeps_log pid _ _) (fun _ => ?_)
  refine keeps_bind pid _ _ (keeps_log pid _ _) (fun _ => ?_)
  exact keeps_log pid _ _

theorem keeps_perform (pid : String) (a : Action) : Keeps pid (perform a) := by
  cases a with
  | connectToTracker => exact keeps_connectToTracker pid
  | registerAsPeer => exact keeps_registerAsPeer pid
  | getPeers => exact keeps_getPeers pid
  | getTorrents => exact keeps_getTorrents pid
  | testConnection => exact keeps_testConnection pid
  | uploadTorrent => exact keeps_uploadTorrent pid
  | clearLogs => exact keeps_clearLogs pid
  | debugConnection => exact keeps_debugConnection pid
  | selectFile file => exact fun _ ht => ht
  | clock t => exact fun _ ht => ht
  | transport i ev => exact keeps_deliver pid i ev
  | reconnectTimer i => exact keeps_mapSession pid i _
  | uploadSettled outcome => exact keeps_uploadSettled pid outcome

theorem inv_run (pid : String) (actions : List Action) :
    ∀ s, Inv pid s → Inv pid (run s actions) := by
  induction actions with
  | nil => exact fun _ h => h
  | cons a rest ih =>
    intro s hs
    exact ih (step s a) (keeps_perform pid a s hs)

theorem inv_startup (token : String) (ioLoaded : Bool) (now : SafeInt) :
    Inv ("VM-" ++ token) (startup token ioLoaded now) := by
  refine ⟨rfl, ?_, ?_⟩
  · intro i hi
    exact absurd hi (by simp [startup, bootScript, page, bind_run, get_run, log_str_run,
      withNotice, updateButtonStates, modify_run, Res.state])
  · intro e he
    exact absurd he (by simp [startup, bootScript, page, bind_run, get_run, log_str_run,
      withNotice, updateButtonStates, modify_run, Res.state])

theorem inv_of_reachable (token : String) (s : State) (h : Reachable token s) :
    Inv ("VM-" ++ token) s := by
  obtain ⟨ioLoaded, now, actions, rfl⟩ := h
  exact inv_run _ actions _ (inv_startup token ioLoaded now)

theorem current_of_connected (s : State) (i : Nat) (hs : s.socket = some i)
    (hc : socketConnected s = true) :
    ∃ sess, s.sessions[i]? = some sess ∧ sess.connected = true := by
  unfold socketConnected currentSession at hc
  rw [hs] at hc
  cases hg : s.sessions[i]? with
  | none => simp [hg] at hc
  | some sess =>
    simp [hg] at hc
    exact ⟨sess, rfl, hc⟩

theorem getElem?_mapSession_self (i : Nat) (f : Session → Session) (l : List Session)
    (x : Session) (hg : l[i]? = some x) : (mapSession i f l)[i]? = some (f x) := by
  have hlt : i < l.length := by
    rcases Nat.lt_or_ge i l.length with h | h
    · exact h
    · rw [List.getElem?_eq_none h] at hg
      cases hg
  simp [mapSession, hg, hlt]

theorem getElem?_mapSession_other (i j : Nat) (f : Session → Session) (l : List Session)
    (hij : j ≠ i) : (mapSession i f l)[j]? = l[j]? := by
  unfold mapSession
  split
  · rw [List.getElem?_set_ne (Ne.symm hij)]
  · rfl

/-! ## The wire contract of the commands (C7) -/

/-- C7. In a connected state whose current socket is `i`, each command completes
and emits exactly one event on that socket: `registerAsPeer` emits
`register_peer` with the identity, port 6881, address `127.0.0.1`, client type
`vm-client` and the two capabilities; `getPeers` and `getTorrents` emit
`get_peers` and `get_torrents` without payload; `testConnection` emits
`test_connection` with `test: true` and the clock reading.  And in every
reachable state the identity is the one drawn at startup and every
`register_peer` emitted so far carried it. -/
theorem commands_emit_wire_contract (s : State) (i : Nat) (hs : s.socket = some i)
    (hc : socketConnected s = true) :
    ((registerAsPeer s).completed = true ∧
      (registerAsPeer s).state.sent = s.sent ++ [⟨i, "register_peer",
        some (.obj [("peer_id", .str s.peerId), ("port", .num 6881),
          ("ip_address", .str "127.0.0.1"), ("client_type", .str "vm-client"),
          ("capabilities", .arr [.str "p2p-sharing", .str "webseed"])])⟩]) ∧
    ((getPeers s).completed = true ∧
      (getPeers s).state.sent = s.sent ++ [⟨i, "get_peers", none⟩]) ∧
    ((getTorrents s).completed = true ∧
      (getTorrents s).state.sent = s.sent ++ [⟨i, "get_torrents", none⟩]) ∧
    ((testConnection s).completed = true ∧
      (testConnection s).state.sent = s.sent ++ [⟨i, "test_connection",
        some (.obj [("test", .bool true), ("time", .num s.now)])⟩]) ∧
    (∀ token t, Reachable token t →
      t.peerId = "VM-" ++ token ∧
      ∀ e ∈ t.sent, e.event = "register_peer" →
        e.payload = some (.obj [("peer_id", .str ("VM-" ++ token)), ("port", .num 6881),
          ("ip_address", .str "127.0.0.1"), ("client_type", .str "vm-client"),
          ("capabilities", .arr [.str "p2p-sharing", .str "webseed"])])) := by
  obtain ⟨sess, hg, hconn⟩ := current_of_connected s i hs hc
  refine ⟨?_, ?_, ?_, ?_, ?_⟩
  · simp [registerAsPeer, bind_run, get_run, socketConnected, currentSession, hs, hg, hconn,
      log_str_run, emit, withNotice, Res.state, Res.completed, registerPayload]
  · simp [getPeers, bind_run, get_run, socketConnected, currentSession, hs, hg, hconn,
      log_str_run, emit, withNotice, Res.state, Res.completed]
  · simp [getTorrents, bind_run, get_run, socketConnected, currentSession, hs, hg, hconn,
      log_str_run, emit, withNotice, Res.state, Res.completed]
  · simp [testConnection, bind_run, get_run, socketConnected, currentSession, hs, hg, hconn,
      log_str_run, emit, withNotice, Res.state, Res.completed]
  · intro token t ht
    obtain ⟨h1, _, h3⟩ := inv_of_reachable token t ht
    exact ⟨h1, h3⟩

/-- C7 at the sample connected state, whose current socket is the first one. -/
theorem commands_emit_wire_contract_witness :
    sampleConnected.socket = some 0 ∧ socketConnected sampleConnected = true ∧
    (testConnection sampleConnected).state.sent = sampleConnected.sent ++
      [⟨0, "test_connection", some (.obj [("test", .bool true), ("time", .num 1000)])⟩] ∧
    Reachable "ab12cd34" sampleConnected ∧
    sampleConnected.peerId = "VM-" ++ "ab12cd34" :=
  ⟨rfl, rfl, (commands_emit_wire_contract sampleConnected 0 rfl rfl).2.2.2.1.2,
    ⟨true, 1000, [.connectToTracker, .transport 0 (.connect "sid-1")], rfl⟩,
    ((commands_emit_wire_contract sampleConnected 0 rfl rfl).2.2.2.2 "ab12cd34" sampleConnected
      ⟨true, 1000, [.connectToTracker, .transport 0 (.connect "sid-1")], rfl⟩).1⟩

/-! ## Registration on `connect` (C3) -/

/-- C3, the code at the failing input.  In the reachable state where
`connectToTracker` ran twice while the first session was still connecting, the
`connect` event of the first session runs the listener, whose call of
`registerAsPeer` (commented `auto-register` in the source) emits nothing: the
guard of `registerAsPeer` tests the variable `socket`, which refers to the
second session, not yet connected.  The listener completes, the page shows
`Connected to Tracker`, and the last notice is `❌ Not connected`. -/
theorem connect_of_replaced_session_emits_nothing :
    Reachable "ab12cd34" sampleTwoSessions ∧
    sampleTwoSessions.sent = [] ∧
    (deliver 0 (.connect "sid-1") sampleTwoSessions).completed = true ∧
    (deliver 0 (.connect "sid-1") sampleTwoSessions).state.sent = [] ∧
    (deliver 0 (.connect "sid-1") sampleTwoSessions).state.statusText =
      "Connected to Tracker" ∧
    ((deliver 0 (.connect "sid-1") sampleTwoSessions).state.logs.getLast?.map
      fun e => e.innerHTML) =
      some [.text "[", .localeTime (.num 1000), .text "] ", .text "❌ Not connected"] :=
  ⟨⟨true, 1000, [.connectToTracker, .connectToTracker], rfl⟩, rfl, rfl, rfl, rfl, rfl⟩

/-- What the listener of `connect` does on the path it was written for: in
every reachable state, when the library delivers `connect` on the socket the
variable `socket` refers to, the listener completes and emits exactly one event
on that socket, `register_peer` with the payload built from the identity drawn
at startup. -/
theorem connect_of_current_session_registers (token : String) (s : State)
    (hr : Reachable token s) (i : Nat) (sid : String) (hs : s.socket = some i) :
    (deliver i (.connect sid) s).completed = true ∧
    (deliver i (.connect sid) s).state.sent =
      s.sent ++ [⟨i, "register_peer", some (registerPayload ("VM-" ++ token))⟩] := by
  obtain ⟨h1, h2, _⟩ := inv_of_reachable token s hr
  have hlt : i < s.sessions.length := h2 i hs
  have hg : s.sessions[i]? = some s.sessions[i] := List.getElem?_eq_getElem hlt
  have hm := getElem?_mapSession_self i (libraryEffect (.connect sid)) s.sessions _ hg
  simp [deliver, handle, onConnect, registerAsPeer, bind_run, get_run, modify_run, hlt,
    socketConnected, currentSession, hs, hm, libraryEffect, log_str_run, emit, withNotice,
    updateStatus, updateSocketStatus, updateButtonStates, Res.state, Res.completed, h1]

/-- The registration on `connect` at the sample state with one session still
connecting. -/
theorem connect_of_current_session_registers_sample :
    Reachable "ab12cd34" sampleOpened ∧ sampleOpened.socket = some 0 ∧
    (deliver 0 (.connect "sid-1") sampleOpened).completed = true ∧
    (deliver 0 (.connect "sid-1") sampleOpened).state.sent =
      sampleOpened.sent ++ [⟨0, "register_peer", some (registerPayload ("VM-" ++ "ab12cd34"))⟩] :=
  ⟨⟨true, 1000, [.connectToTracker], rfl⟩, rfl,
    connect_of_current_session_registers "ab12cd34" sampleOpened
      ⟨true, 1000, [.connectToTracker], rfl⟩ 0 "sid-1" rfl⟩

/-! ## Replacing the session (C5) -/

/-- C5 as stated fails: with one session still connecting (it exists, is not
connected and has not been closed), `connectToTracker` opens a second session
and leaves the first one open; both can then connect, which gives two live
sessions at once. -/
theorem connect_leaves_connecting_session_open :
    currentSession sampleOpened = some trackerSession ∧
    (connectToTracker sampleOpened).state.sessions.map (fun x => x.closed) = [false, false] ∧
    (connectToTracker sampleOpened).state.socket = some 1 ∧
    (run sampleOpened [.connectToTracker, .transport 0 (.connect "sid-1"),
      .transport 1 (.connect "sid-2")]).sessions.map (fun x => (x.connected, x.closed)) =
      [(true, false), (true, false)] :=
  ⟨rfl, rfl, rfl, rfl⟩

/-- C5 (amended). When the library is loaded and the current session is
connected, `connectToTracker` completes, closes that session (the library marks
it disconnected and closed, and its `disconnect` listener runs) and then opens
one new session, which becomes the current one; if every other session was
closed before, the new session is the only one not closed afterwards. -/
theorem connect_replaces_connected_session (s : State) (i : Nat)
    (hio : s.ioLoaded = true) (hs : s.socket = some i) (hc : socketConnected s = true) :
    (connectToTracker s).completed = true ∧
    (connectToTracker s).state.sessions =
      mapSession i closeConnected s.sessions ++ [trackerSession] ∧
    (connectToTracker s).state.socket = some s.sessions.length ∧
    (∃ old, s.sessions[i]? = some old ∧
      (connectToTracker s).state.sessions[i]? = some (closeConnected old)) ∧
    (connectToTracker s).state.logs.map (fun e => e.className) =
      s.logs.map (fun e => e.className) ++ ["log info", "log error", "log info"] ∧
    ((∀ j x, j ≠ i → s.sessions[j]? = some x → x.closed = true) →
      ∀ j x, j ≠ s.sessions.length →
        (connectToTracker s).state.sessions[j]? = some x → x.closed = true) := by
  obtain ⟨sess, hg, hconn⟩ := current_of_connected s i hs hc
  have hlt : i < s.sessions.length := by
    rcases Nat.lt_or_ge i s.sessions.length with h | h
    · exact h
    · rw [List.getElem?_eq_none h] at hg
      cases hg
  have hsess : (connectToTracker s).state.sessions =
      mapSession i closeConnected s.sessions ++ [trackerSession] := by
    simp [connectToTracker, bind_run, get_run, hio, log_str_run, socketDisconnect,
      socketConnected, currentSession, hs, hg, hconn, modify_run, onDisconnect, updateStatus,
      updateSocketStatus, updateButtonStates, toText_str, lift_ok_run, Res.state, withNotice]
  have hself : (mapSession i closeConnected s.sessions ++ [trackerSession])[i]? =
      some (closeConnected sess) := by
    rw [List.getElem?_append_left (by rw [length_mapSession]; exact hlt)]
    exact getElem?_mapSession_self i closeConnected s.sessions sess hg
  refine ⟨?_, hsess, ?_, ⟨sess, hg, by rw [hsess]; exact hself⟩, ?_, ?_⟩
  · simp [connectToTracker, bind_run, get_run, hio, log_str_run, socketDisconnect,
      socketConnected, currentSession, hs, hg, hconn, modify_run, onDisconnect, updateStatus,
      updateSocketStatus, updateButtonStates, toText_str, lift_ok_run, Res.completed, withNotice]
  · simp [connectToTracker, bind_run, get_run, hio, log_str_run, socketDisconnect,
      socketConnected, currentSession, hs, hg, hconn, modify_run, onDisconnect, updateStatus,
      updateSocketStatus, updateButtonStates, toText_str, lift_ok_run, Res.state, withNotice, length_mapSession]
  · simp [connectToTracker, bind_run, get_run, hio, log_str_run, socketDisconnect,
      socketConnected, currentSession, hs, hg, hconn, modify_run, onDisconnect, updateStatus,
      updateSocketStatus, updateButtonStates, toText_str, lift_ok_run, Res.state, withNotice]
  · intro hothers j x hj hx
    rw [hsess] at hx
    rcases Nat.lt_or_ge j s.sessions.length with hjl | hjl
    · rw [List.getElem?_append_left (by rw [length_mapSession]; exact hjl)] at hx
      by_cases hji : j = i
      · subst hji
        rw [getElem?_mapSession_self j closeConnected s.sessions sess hg] at hx
        cases hx
        rfl
      · rw [getElem?_mapSession_other i j closeConnected s.sessions hji] at hx
        exact hothers j x hji hx
    · have hgt : (mapSession i closeConnected s.sessions ++ [trackerSession]).length ≤ j := by
        simp only [List.length_append, length_mapSession, List.length_singleton]
        omega
      rw [List.getElem?_eq_none hgt] at hx
      cases hx

/-- C5 (amended) at the sample connected state: the first session is closed,
the second one is current. -/
theorem connect_replaces_connected_session_witness :
    sampleConnected.ioLoaded = true ∧ sampleConnected.socket = some 0 ∧
    socketConnected sampleConnected = true ∧
    (connectToTracker sampleConnected).state.socket = some sampleConnected.sessions.length :=
  ⟨rfl, rfl, rfl, (connect_replaces_connected_session sampleConnected 0 rfl rfl rfl).2.2.1⟩

/-! ## Snapshots replace the participant view (C2) -/

theorem onPeersUpdated_run (data c p : JSVal) (text shown : String) (t : State)
    (hc : data.getProp "count" = .ok c) (ht : c.toText = .ok text)
    (hs : c.toTextContent = .ok shown) (hp : data.getProp "peers" = .ok p) :
    onPeersUpdated data t = displayPeers p
      { withNotice t "info" ("📊 Peer list updated (" ++ text ++ ")") with
        peerCount := shown } := by
  simp [onPeersUpdated, bind_run, hc, ht, hs, hp, lift_ok_run, log_str_run, modify_run]

theorem displayPeers_placeholder (p : JSVal) (t : State) (h : absentOrEmpty p = true) :
    displayPeers p t = .ok () { t with peersDiv := noPeersHtml } := by
  simp [displayPeers, h, modify_run]

theorem displayPeers_list (p : JSVal) (html : Html) (t : State)
    (h : absentOrEmpty p = false) (hm : mapJoin renderPeer p = .ok html) :
    displayPeers p t = .ok () { t with peersDiv := html } := by
  simp [displayPeers, bind_run, h, hm, lift_ok_run, modify_run]

theorem renderPeer_record (p : ParticipantRecord) : ∃ html, renderPeer p.toJS = .ok html := by
  obtain ⟨peer_id, ip, port, connected_at⟩ := p
  cases connected_at with
  | date s => exact ⟨_, rfl⟩
  | millis n => exact ⟨_, rfl⟩

theorem renderAll_records (peers : List ParticipantRecord) :
    ∃ html, renderAll renderPeer (peers.map ParticipantRecord.toJS) = .ok html := by
  induction peers with
  | nil => exact ⟨[], rfl⟩
  | cons p rest ih =>
    obtain ⟨h1, hp⟩ := renderPeer_record p
    obtain ⟨h2, hr⟩ := ih
    exact ⟨h1 ++ h2, by simp [renderAll, hp, hr]⟩

theorem peers_snapshot_view (x : PeersSnapshot) :
    ∃ html, (x.peers = [] → html = noPeersHtml) ∧ ∀ t : State,
      (handle (.peers_updated x.toJS) t).completed = true ∧
      (handle (.peers_updated x.toJS) t).state.peerCount = x.count.digits ∧
      (handle (.peers_updated x.toJS) t).state.peersDiv = html := by
  obtain ⟨count, peers⟩ := x
  have hc : (PeersSnapshot.toJS ⟨count, peers⟩).getProp "count" = .ok (.num count) := rfl
  have ht : (JSVal.num count).toText = .ok count.digits := rfl
  have hs : (JSVal.num count).toTextContent = .ok count.digits := rfl
  have hp : (PeersSnapshot.toJS ⟨count, peers⟩).getProp "peers" =
      .ok (.arr (peers.map ParticipantRecord.toJS)) := rfl
  cases peers with
  | nil =>
    refine ⟨noPeersHtml, fun _ => rfl, fun t => ?_⟩
    show (onPeersUpdated _ t).completed = true ∧ (onPeersUpdated _ t).state.peerCount = _ ∧
      (onPeersUpdated _ t).state.peersDiv = _
    have he : absentOrEmpty (.arr (([] : List ParticipantRecord).map ParticipantRecord.toJS)) =
        true := rfl
    rw [onPeersUpdated_run _ _ _ _ _ t hc ht hs hp, displayPeers_placeholder _ _ he]
    exact ⟨rfl, rfl, rfl⟩
  | cons p rest =>
    obtain ⟨html, hr⟩ := renderAll_records (p :: rest)
    refine ⟨html, ⟨fun h => by simp at h, fun t => ?_⟩⟩
    show (onPeersUpdated _ t).completed = true ∧ (onPeersUpdated _ t).state.peerCount = _ ∧
      (onPeersUpdated _ t).state.peersDiv = _
    have he : absentOrEmpty (.arr ((p :: rest).map ParticipantRecord.toJS)) = false := rfl
    rw [onPeersUpdated_run _ _ _ _ _ t hc ht hs hp, displayPeers_list _ html _ he hr]
    exact ⟨rfl, rfl, rfl⟩

/-- C2. For participant-list snapshots as the wire contract types them (a
numeric count; records whose identity and address are strings, whose port is a
number and whose stamp is a date string or a number), handling `peers_updated`
for a snapshot `s2` after a snapshot `s1` leaves the displayed count and the
rendered participant list exactly as handling `s2` alone does; the count shown
is the count of `s2`, and when `s2` has no participants the list shows the
placeholder.  In particular a snapshot of two participants followed by the
empty snapshot with count 0 shows count 0 and the placeholder: nothing of the
first list is kept. -/
theorem peers_updated_replaces (s : State) (s1 s2 : PeersSnapshot) :
    ((handle (.peers_updated s2.toJS) (handle (.peers_updated s1.toJS) s).state).state.peerCount =
        (handle (.peers_updated s2.toJS) s).state.peerCount ∧
      (handle (.peers_updated s2.toJS) (handle (.peers_updated s1.toJS) s).state).state.peersDiv =
        (handle (.peers_updated s2.toJS) s).state.peersDiv) ∧
    (handle (.peers_updated s2.toJS) (handle (.peers_updated s1.toJS) s).state).state.peerCount =
      s2.count.digits ∧
    (s2.peers = [] →
      (handle (.peers_updated s2.toJS) (handle (.peers_updated s1.toJS) s).state).state.peersDiv =
        noPeersHtml) ∧
    (∀ a b : ParticipantRecord,
      (handle (.peers_updated (PeersSnapshot.toJS ⟨0, []⟩))
        (handle (.peers_updated (PeersSnapshot.toJS ⟨2, [a, b]⟩)) s).state).state.peerCount = "0" ∧
      (handle (.peers_updated (PeersSnapshot.toJS ⟨0, []⟩))
        (handle (.peers_updated (PeersSnapshot.toJS ⟨2, [a, b]⟩)) s).state).state.peersDiv =
          noPeersHtml) := by
  obtain ⟨html, hempty, hview⟩ := peers_snapshot_view s2
  obtain ⟨_, hc1, hd1⟩ := hview (handle (.peers_updated s1.toJS) s).state
  obtain ⟨_, hc2, hd2⟩ := hview s
  refine ⟨⟨by rw [hc1, hc2], by rw [hd1, hd2]⟩, hc1, fun h => by rw [hd1]; exact hempty h, ?_⟩
  intro a b
  obtain ⟨html0, hempty0, hview0⟩ := peers_snapshot_view ⟨0, []⟩
  obtain ⟨_, hc0, hd0⟩ :=
    hview0 (handle (.peers_updated (PeersSnapshot.toJS ⟨2, [a, b]⟩)) s).state
  exact ⟨by rw [hc0]; rfl, by rw [hd0]; exact hempty0 rfl⟩

/-- C2 at the sample connected state: after a snapshot with one record, the
empty snapshot leaves count 0 and the placeholder. -/
theorem peers_updated_replaces_witness :
    (PeersSnapshot.mk 0 []).peers = [] ∧
    (handle (.peers_updated (PeersSnapshot.toJS ⟨0, []⟩))
      (handle (.peers_updated (PeersSnapshot.toJS
        ⟨1, [⟨"VM-ab12cd34", "127.0.0.1", 6881, .millis 1000⟩]⟩))
        sampleConnected).state).state.peersDiv = noPeersHtml :=
  ⟨rfl,
    (peers_updated_replaces sampleConnected
      ⟨1, [⟨"VM-ab12cd34", "127.0.0.1", 6881, .millis 1000⟩]⟩ ⟨0, []⟩).2.2.1 rfl⟩

/-! ## Missing fields (C8) -/

theorem onTorrentsList_run (data c p : JSVal) (text shown : String) (t : State)
    (hc : data.getProp "count" = .ok c) (ht : c.toText = .ok text)
    (hs : c.toTextContent = .ok shown) (hp : data.getProp "torrents" = .ok p) :
    onTorrentsList data t = displayTorrents p
      { withNotice t "info" ("📁 Torrents updated (" ++ text ++ ")") with
        torrentCount := shown } := by
  simp [onTorrentsList, bind_run, hc, ht, hs, hp, lift_ok_run, log_str_run, modify_run]

theorem displayTorrents_placeholder (p : JSVal) (t : State)
    (h : absentOrEmpty p = true) :
    displayTorrents p t = .ok () { t with torrentsDiv := noTorrentsHtml } := by
  simp [displayTorrents, h, modify_run]

theorem displayTorrents_list (p : JSVal) (html : Html) (t : State)
    (h : absentOrEmpty p = false) (hm : mapJoin renderTorrent p = .ok html) :
    displayTorrents p t = .ok () { t with torrentsDiv := html } := by
  simp [displayTorrents, bind_run, h, hm, lift_ok_run, modify_run]

theorem displayPeers_frame (p : JSVal) (t : State) :
    ∃ html, (displayPeers p t).state = { t with peersDiv := html } := by
  unfold displayPeers
  cases he : absentOrEmpty p with
  | true => exact ⟨noPeersHtml, rfl⟩
  | false =>
    simp only [Bool.false_eq_true, if_false]
    rw [bind_run]
    cases hm : mapJoin renderPeer p with
    | error e => exact ⟨t.peersDiv, rfl⟩
    | ok html => exact ⟨html, rfl⟩

theorem displayTorrents_frame (p : JSVal) (t : State) :
    ∃ html, (displayTorrents p t).state = { t with torrentsDiv := html } := by
  unfold displayTorrents
  cases he : absentOrEmpty p with
  | true => exact ⟨noTorrentsHtml, rfl⟩
  | false =>
    simp only [Bool.false_eq_true, if_false]
    rw [bind_run]
    cases hm : mapJoin renderTorrent p with
    | error e => exact ⟨t.torrentsDiv, rfl⟩
    | ok html => exact ⟨html, rfl⟩

theorem getProp_obj (fields : List (String × JSVal)) (key : String) :
    (JSVal.obj fields).getProp key = .ok ((fields.lookup key).getD .undefined) := rfl

theorem lookup_cons_other (k a : String) (v : JSVal) (fields : List (String × JSVal))
    (h : k ≠ a) : List.lookup k ((a, v) :: fields) = List.lookup k fields := by
  have hb : (k == a) = false := by simpa using h
  simp [List.lookup, hb]

theorem lookup_cons_same (k : String) (v : JSVal) (fields : List (String × JSVal)) :
    List.lookup k ((k, v) :: fields) = some v := by
  simp [List.lookup]

theorem onPeersUpdated_obj (fields : List (String × JSVal)) (s : State) :
    onPeersUpdated (.obj fields) s =
      (JS.lift ((fields.lookup "count").getD .undefined).toText >>= fun text =>
        log ("📊 Peer list updated (" ++ text ++ ")") (.str "info") >>= fun _ =>
        JS.lift ((fields.lookup "count").getD .undefined).toTextContent >>= fun shown =>
        JS.modify (fun s => { s with peerCount := shown }) >>= fun _ =>
        displayPeers ((fields.lookup "peers").getD .undefined)) s := by
  simp [onPeersUpdated, bind_run, getProp_obj, lift_ok_run]

theorem onTorrentsList_obj (fields : List (String × JSVal)) (s : State) :
    onTorrentsList (.obj fields) s =
      (JS.lift ((fields.lookup "count").getD .undefined).toText >>= fun text =>
        log ("📁 Torrents updated (" ++ text ++ ")") (.str "info") >>= fun _ =>
        JS.lift ((fields.lookup "count").getD .undefined).toTextContent >>= fun shown =>
        JS.modify (fun s => { s with torrentCount := shown }) >>= fun _ =>
        displayTorrents ((fields.lookup "torrents").getD .undefined)) s := by
  simp [onTorrentsList, bind_run, getProp_obj, lift_ok_run]

theorem toTextContent_of_printable (v : JSVal) (h : v.printable = true) :
    ∃ shown, v.toTextContent = .ok shown := by
  cases v with
  | undefined => exact ⟨_, rfl⟩
  | null => exact ⟨_, rfl⟩
  | bool b => exact ⟨_, toText_of_printable _ h⟩
  | num n => exact ⟨_, toText_of_printable _ h⟩
  | str t => exact ⟨_, toText_of_printable _ h⟩
  | arr items => exact ⟨_, toText_of_printable _ h⟩
  | obj fields => exact ⟨_, toText_of_printable _ h⟩

theorem peers_updated_missing_list (fields : List (String × JSVal)) (s : State)
    (h : fields.lookup "peers" = none) :
    handle (.peers_updated (.obj fields)) s =
      handle (.peers_updated (.obj (("peers", .arr []) :: fields))) s ∧
    (((fields.lookup "count").getD .undefined).printable = true →
      (handle (.peers_updated (.obj fields)) s).completed = true ∧
      (handle (.peers_updated (.obj fields)) s).state.peersDiv = noPeersHtml) := by
  have hd1 : ∀ t, displayPeers (Option.getD none undefined) t =
      .ok () { t with peersDiv := noPeersHtml } := fun t => displayPeers_placeholder _ t rfl
  have hd2 : ∀ t, displayPeers (Option.getD (some (arr [])) undefined) t =
      .ok () { t with peersDiv := noPeersHtml } := fun t => displayPeers_placeholder _ t rfl
  have he : displayPeers (Option.getD none undefined) =
      displayPeers (Option.getD (some (arr [])) undefined) := by
    funext t
    rw [hd1, hd2]
  constructor
  · show onPeersUpdated _ s = onPeersUpdated _ s
    rw [onPeersUpdated_obj, onPeersUpdated_obj, h, lookup_cons_same,
      lookup_cons_other _ _ _ _ (show "count" ≠ "peers" by decide), he]
  · intro hp
    obtain ⟨shown, hshown⟩ := toTextContent_of_printable _ hp
    have hrun : handle (.peers_updated (.obj fields)) s = _ :=
      onPeersUpdated_run (.obj fields) _ _ _ shown s (getProp_obj _ _)
        (toText_of_printable _ hp) hshown (getProp_obj _ _)
    rw [hrun, h, hd1]
    exact ⟨rfl, rfl⟩

theorem torrents_list_missing_list (fields : List (String × JSVal)) (s : State)
    (h : fields.lookup "torrents" = none) :
    handle (.torrents_list (.obj fields)) s =
      handle (.torrents_list (.obj (("torrents", .arr []) :: fields))) s ∧
    (((fields.lookup "count").getD .undefined).printable = true →
      (handle (.torrents_list (.obj fields)) s).completed = true ∧
      (handle (.torrents_list (.obj fields)) s).state.torrentsDiv = noTorrentsHtml) := by
  have hd1 : ∀ t, displayTorrents (Option.getD none undefined) t =
      .ok () { t with torrentsDiv := noTorrentsHtml } :=
    fun t => displayTorrents_placeholder _ t rfl
  have hd2 : ∀ t, displayTorrents (Option.getD (some (arr [])) undefined) t =
      .ok () { t with torrentsDiv := noTorrentsHtml } :=
    fun t => displayTorrents_placeholder _ t rfl
  have he : displayTorrents (Option.getD none undefined) =
      displayTorrents (Option.getD (some (arr [])) undefined) := by
    funext t
    rw [hd1, hd2]
  constructor
  · show onTorrentsList _ s = onTorrentsList _ s
    rw [onTorrentsList_obj, onTorrentsList_obj, h, lookup_cons_same,
      lookup_cons_other _ _ _ _ (show "count" ≠ "torrents" by decide), he]
  · intro hp
    obtain ⟨shown, hshown⟩ := toTextContent_of_printable _ hp
    have hrun : handle (.torrents_list (.obj fields)) s = _ :=
      onTorrentsList_run (.obj fields) _ _ _ shown s (getProp_obj _ _)
        (toText_of_printable _ hp) hshown (getProp_obj _ _)
    rw [hrun, h, hd1]
    exact ⟨rfl, rfl⟩

theorem missing_count_clears (fields : List (String × JSVal)) (s : State)
    (h : fields.lookup "count" = none) :
    (handle (.peers_updated (.obj fields)) s).state.peerCount = "" ∧
    (handle (.torrents_list (.obj fields)) s).state.torrentCount = "" := by
  have h1 : handle (.peers_updated (.obj fields)) s = _ :=
    onPeersUpdated_run (.obj fields) _ _ "undefined" "" s (getProp_obj _ _)
      (by rw [h]; rfl) (by rw [h]; rfl) (getProp_obj _ _)
  have h2 : handle (.torrents_list (.obj fields)) s = _ :=
    onTorrentsList_run (.obj fields) _ _ "undefined" "" s (getProp_obj _ _)
      (by rw [h]; rfl) (by rw [h]; rfl) (getProp_obj _ _)
  rw [h1, h2]
  constructor
  · obtain ⟨html, hh⟩ := displayPeers_frame ((List.lookup "peers" fields).getD undefined)
      { withNotice s "info" ("📊 Peer list updated (" ++ "undefined" ++ ")")
        with peerCount := "" }
    rw [hh]
  · obtain ⟨html, hh⟩ := displayTorrents_frame ((List.lookup "torrents" fields).getD undefined)
      { withNotice s "info" ("📁 Torrents updated (" ++ "undefined" ++ ")")
        with torrentCount := "" }
    rw [hh]

/-- C8 as stated fails on the count: for a payload without `count` the count
element is cleared to the empty text, while the same payload with `count: 0`
shows `0`; the notice logged reads `undefined`, not `0`. -/
theorem missing_count_is_not_zero :
    (handle (.peers_updated (.obj [("peers", .arr [])])) sampleConnected).state.peerCount = "" ∧
    (handle (.peers_updated (.obj [("count", .num 0), ("peers", .arr [])]))
      sampleConnected).state.peerCount = "0" ∧
    (handle (.torrents_list (.obj [("torrents", .arr [])])) sampleConnected).state.torrentCount
      = "" ∧
    (handle (.torrents_list (.obj [("count", .num 0), ("torrents", .arr [])]))
      sampleConnected).state.torrentCount = "0" := by
  decide

/-- C8 (amended). For an object payload of `peers_updated` or `torrents_list`
the handler applies these defaults instead of rejecting the update.  A missing
list is handled exactly as the empty list is, and when the count converts to
text the handler completes and the list shows the placeholder.  A missing count
clears the displayed count to the empty text.  A resource record with a missing
filename renders as the same record with filename `Unknown File`, one with a
missing hash as the same record with hash `N/A`, and one with a missing size
renders, whatever its other members, with the size label `Unknown` between the
texts of those members. -/
theorem missing_fields_defaults (fields record : List (String × JSVal)) (s : State) :
    (fields.lookup "peers" = none →
      handle (.peers_updated (.obj fields)) s =
        handle (.peers_updated (.obj (("peers", .arr []) :: fields))) s ∧
      (((fields.lookup "count").getD .undefined).printable = true →
        (handle (.peers_updated (.obj fields)) s).completed = true ∧
        (handle (.peers_updated (.obj fields)) s).state.peersDiv = noPeersHtml)) ∧
    (fields.lookup "torrents" = none →
      handle (.torrents_list (.obj fields)) s =
        handle (.torrents_list (.obj (("torrents", .arr []) :: fields))) s ∧
      (((fields.lookup "count").getD .undefined).printable = true →
        (handle (.torrents_list (.obj fields)) s).completed = true ∧
        (handle (.torrents_list (.obj fields)) s).state.torrentsDiv = noTorrentsHtml)) ∧
    (fields.lookup "count" = none →
      (handle (.peers_updated (.obj fields)) s).state.peerCount = "" ∧
      (handle (.torrents_list (.obj fields)) s).state.torrentCount = "") ∧
    (record.lookup "filename" = none →
      renderTorrent (.obj record) =
        renderTorrent (.obj (("filename", .str "Unknown File") :: record))) ∧
    (record.lookup "info_hash" = none →
      renderTorrent (.obj record) =
        renderTorrent (.obj (("info_hash", .str "N/A") :: record))) ∧
    (record.lookup "size" = none →
      ∀ (name hash : String) (uploaded : Piece),
        (((record.lookup "filename").getD .undefined).orElse (.str "Unknown File")).toText =
          .ok name →
        (((record.lookup "info_hash").getD .undefined).orElse (.str "N/A")).toText =
          .ok hash →
        localeTimeOf ((record.lookup "uploaded_at").getD .undefined) = .ok uploaded →
        renderTorrent (.obj record) = .ok [
          .text ("\n            <li>\n                <strong>" ++ name ++ "</strong><br>\n" ++
            "                <small>Hash: " ++ hash ++ "</small><br>\n" ++
            "                <small>Size: "),
          .text "Unknown",
          .text "</small><br>\n                <small>Uploaded: ",
          uploaded,
          .text "</small>\n            </li>\n        "]) := by
  refine ⟨peers_updated_missing_list fields s, torrents_list_missing_list fields s,
    missing_count_clears fields s, ?_, ?_, ?_⟩
  · intro h
    simp [renderTorrent, getProp_obj, h, lookup_cons_same,
      lookup_cons_other _ _ _ _ (show "info_hash" ≠ "filename" by decide),
      lookup_cons_other _ _ _ _ (show "size" ≠ "filename" by decide),
      lookup_cons_other _ _ _ _ (show "uploaded_at" ≠ "filename" by decide),
      orElse, truthy, bind, Except.bind, pure, Except.pure, toText_str]
  · intro h
    simp [renderTorrent, getProp_obj, h, lookup_cons_same,
      lookup_cons_other _ _ _ _ (show "filename" ≠ "info_hash" by decide),
      lookup_cons_other _ _ _ _ (show "size" ≠ "info_hash" by decide),
      lookup_cons_other _ _ _ _ (show "uploaded_at" ≠ "info_hash" by decide),
      orElse, truthy, bind, Except.bind, pure, Except.pure, toText_str]
  · intro h name hash uploaded hname hhash hup
    simp [renderTorrent, getProp_obj, h, hname, hhash, hup, sizeLabel, truthy, bind,
      Except.bind, pure, Except.pure]

/-- C8 (amended) at a `torrents_list` payload that carries one record with an
upload stamp only, and neither count nor, for `peers_updated`, a list; and at
the record `filename: a.torrent`, `info_hash: abc`, which has no size. -/
theorem missing_fields_defaults_witness :
    List.lookup "peers" [("torrents", JSVal.arr [.obj [("uploaded_at", .num 5)]])] = none ∧
    (handle (.peers_updated (.obj [("torrents", .arr [.obj [("uploaded_at", .num 5)]])]))
      sampleConnected).state.peersDiv = noPeersHtml ∧
    List.lookup "count" [("torrents", JSVal.arr [.obj [("uploaded_at", .num 5)]])] = none ∧
    (handle (.torrents_list (.obj [("torrents", .arr [.obj [("uploaded_at", .num 5)]])]))
      sampleConnected).state.torrentCount = "" ∧
    List.lookup "size" [("filename", JSVal.str "a.torrent"), ("info_hash", .str "abc")] = none ∧
    renderTorrent (.obj [("filename", .str "a.torrent"), ("info_hash", .str "abc")]) = .ok [
      .text ("\n            <li>\n                <strong>" ++ "a.torrent" ++ "</strong><br>\n" ++
        "                <small>Hash: " ++ "abc" ++ "</small><br>\n" ++
        "                <small>Size: "),
      .text "Unknown",
      .text "</small><br>\n                <small>Uploaded: ",
      .localeTime .undefined,
      .text "</small>\n            </li>\n        "] :=
  ⟨rfl,
    (((missing_fields_defaults [("torrents", .arr [.obj [("uploaded_at", .num 5)]])]
      [] sampleConnected).1 rfl).2 rfl).2,
    rfl,
    ((missing_fields_defaults [("torrents", .arr [.obj [("uploaded_at", .num 5)]])]
      [] sampleConnected).2.2.1 rfl).2,
    rfl,
    (missing_fields_defaults [] [("filename", .str "a.torrent"), ("info_hash", .str "abc")]
      sampleConnected).2.2.2.2.2 rfl "a.torrent" "abc" (.localeTime .undefined) rfl rfl rfl⟩

/-! ## A late registration acknowledgment (C4) -/

/-- C4 as stated fails: after the session that sent `register_peer` was lost,
a `peer_registered` acknowledgment is not discarded; the listener completes and
reports the registration with a notice of severity `success`, in the
disconnected state and also when it is delivered after the library has
reconnected the socket. -/
theorem late_acknowledgment_is_reported :
    socketConnected sampleDisconnected = false ∧
    sampleDisconnected.sent.map (fun e => e.event) = ["register_peer"] ∧
    sampleDisconnected.statusText = "Disconnected" ∧
    handle (.peer_registered (.obj [("peer_id", .str "VM-ab12cd34")])) sampleDisconnected =
      .ok () (withNotice sampleDisconnected "success" "👤 Registered as peer: VM-ab12cd34") ∧
    ((run sampleDisconnected [.reconnectTimer 0, .transport 0 (.connect "sid-2"),
        .transport 0 (.peer_registered (.obj [("peer_id", .str "VM-ab12cd34")]))]).logs.getLast?.map
      fun e => e.className) = some "log success" :=
  ⟨rfl, rfl, rfl, rfl, rfl⟩

/-- C4 (amended). A `peer_registered` acknowledgment is handled the same in
every state, connected or not: when its `peer_id` converts to text the listener
completes and appends the notice `👤 Registered as peer: <peer_id>` of severity
`success`, and changes nothing else; no registration state is recorded. -/
theorem acknowledgment_only_logs (fields : List (String × JSVal)) (text : String) (s : State)
    (h : ((fields.lookup "peer_id").getD .undefined).toText = .ok text) :
    handle (.peer_registered (.obj fields)) s =
      .ok () (withNotice s "success" ("👤 Registered as peer: " ++ text)) := by
  simp [handle, onPeerRegistered, bind_run, getProp_obj, h, lift_ok_run, log_str_run]

/-- C4 (amended) at the sample state where the session was lost. -/
theorem acknowledgment_only_logs_witness :
    ((List.lookup "peer_id" [("peer_id", JSVal.str "VM-ab12cd34")]).getD .undefined).toText =
      .ok "VM-ab12cd34" ∧
    handle (.peer_registered (.obj [("peer_id", .str "VM-ab12cd34")])) sampleDisconnected =
      .ok () (withNotice sampleDisconnected "success"
        ("👤 Registered as peer: " ++ "VM-ab12cd34")) :=
  ⟨rfl, acknowledgment_only_logs [("peer_id", .str "VM-ab12cd34")] "VM-ab12cd34"
    sampleDisconnected rfl⟩

/-! ## The attempt budget and the manual reconnect (C6) -/

theorem mapSession_fixed (i : Nat) (f : Session → Session) (l : List Session)
    (h : ∀ x, l[i]? = some x → f x = x) : mapSession i f l = l := by
  unfold mapSession
  cases hg : l[i]? with
  | none => rfl
  | some x =>
    simp only []
    rw [h x hg]
    apply List.ext_getElem?
    intro j
    by_cases hji : i = j
    · subst hji
      have hlt : i < l.length := by
        rcases Nat.lt_or_ge i l.length with hl | hl
        · exact hl
        · rw [List.getElem?_eq_none hl] at hg
          cases hg
      simp [hlt, hg]
    · rw [List.getElem?_set_ne hji]

theorem attemptFailed_step (s : State) (i : Nat) (message : String)
    (hlt : i < s.sessions.length) :
    step s (attemptFailed i message) =
      { withNotice s "error" ("❌ Connection failed: " ++ message) with
        statusText := "Connection Failed"
        statusClass := "disconnected"
        socketStatusHtml := "❌ Connection Error"
        socketStatusClass := "socket-status socket-bad" } := by
  have hm : mapSession i (libraryEffect (.connect_error (.obj [("message", .str message)])))
      s.sessions = s.sessions := mapSession_fixed i _ _ (fun _ _ => rfl)
  simp [step, attemptFailed, perform, deliver, bind_run, get_run, hlt, modify_run, handle,
    onConnectError, getProp_obj, lift_ok_run, log_str_run, updateStatus, updateSocketStatus,
    Res.state, List.lookup, toText_str, hm, withNotice]

theorem reconnectTimer_step (s : State) (i : Nat) :
    step s (.reconnectTimer i) =
      { s with sessions := mapSession i reconnectAttempt s.sessions } := rfl

theorem lt_length_of_getElem? (l : List Session) (i : Nat) (x : Session)
    (h : l[i]? = some x) : i < l.length := by
  rcases Nat.lt_or_ge i l.length with hl | hl
  · exact hl
  · rw [List.getElem?_eq_none hl] at h
    cases h

theorem failedRetries_facts (i : Nat) (messages : List String) :
    ∀ (t : State) (x : Session), t.socket = some i → t.sessions[i]? = some x →
      x.reconnection = true → x.connected = false → x.closed = false →
      x.attempts + messages.length ≤ x.reconnectionAttempts →
      (run t (failedRetries i messages)).ioLoaded = t.ioLoaded ∧
      (run t (failedRetries i messages)).socket = some i ∧
      (run t (failedRetries i messages)).sessions[i]? =
        some { x with attempts := x.attempts + messages.length } ∧
      (run t (failedRetries i messages)).sent = t.sent ∧
      (run t (failedRetries i messages)).statusText =
        (if messages = [] then t.statusText else "Connection Failed") := by
  induction messages with
  | nil =>
    intro t x hs hx _ _ _ _
    exact ⟨rfl, hs, hx, rfl, rfl⟩
  | cons m rest ih =>
    intro t x hs hx hre hco hcl hbudget
    have hlen : (m :: rest).length = rest.length + 1 := rfl
    have hmay : mayReconnect x = true := by
      simp [mayReconnect, hre, hco, hcl]
      omega
    have hx1 : (mapSession i reconnectAttempt t.sessions)[i]? =
        some { x with attempts := x.attempts + 1 } := by
      rw [getElem?_mapSession_self i reconnectAttempt t.sessions x hx]
      simp [reconnectAttempt, hmay]
    have hrun : run t (failedRetries i (m :: rest)) =
        run (step (step t (.reconnectTimer i)) (attemptFailed i m)) (failedRetries i rest) := rfl
    have hlt1 : i < (step t (.reconnectTimer i)).sessions.length := by
      rw [reconnectTimer_step]
      exact lt_length_of_getElem? _ _ _ hx1
    have hstep := attemptFailed_step (step t (.reconnectTimer i)) i m hlt1
    obtain ⟨h1, h2, h3, h4, h5⟩ := ih (step (step t (.reconnectTimer i)) (attemptFailed i m))
      { x with attempts := x.attempts + 1 } (by rw [hstep]; exact hs) (by rw [hstep]; exact hx1)
      hre hco hcl (by simp only []; omega)
    rw [hrun]
    refine ⟨?_, h2, ?_, ?_, ?_⟩
    · rw [h1, hstep]; rfl
    · rw [h3]
      simp only [hlen, Nat.add_assoc, Nat.add_comm 1 rest.length]
    · rw [h4, hstep]; rfl
    · rw [h5, hstep]
      cases rest <;> simp

theorem connect_fresh (t : State) (hio : t.ioLoaded = true) (hnc : socketConnected t = false) :
    connectToTracker t = .ok ()
      { withNotice t "info" "📡 Connecting to tracker..." with
        statusText := "Connecting..."
        statusClass := "disconnected"
        socketStatusHtml := "🔄 Connecting..."
        socketStatusClass := "socket-status socket-bad"
        socket := some t.sessions.length
        sessions := t.sessions ++ [trackerSession] } := by
  simp [connectToTracker, bind_run, get_run, hio, hnc, pure_run, log_str_run, updateStatus,
    updateSocketStatus, modify_run, withNotice]

theorem afterFailedAttempts_facts (o : State) (i : Nat) (first : String)
    (messages : List String) (hs : o.socket = some i)
    (hx : o.sessions[i]? = some trackerSession) (hlen : messages.length ≤ 5) :
    (afterFailedAttempts o i first messages).ioLoaded = o.ioLoaded ∧
    (afterFailedAttempts o i first messages).socket = some i ∧
    (afterFailedAttempts o i first messages).sessions[i]? =
      some { trackerSession with attempts := messages.length } ∧
    (afterFailedAttempts o i first messages).sent = o.sent ∧
    (afterFailedAttempts o i first messages).statusText = "Connection Failed" := by
  have hlt := lt_length_of_getElem? _ _ _ hx
  have hstep := attemptFailed_step o i first hlt
  have hrun : afterFailedAttempts o i first messages =
      run (step o (attemptFailed i first)) (failedRetries i messages) := rfl
  obtain ⟨h1, h2, h3, h4, h5⟩ := failedRetries_facts i messages
    (step o (attemptFailed i first)) trackerSession (by rw [hstep]; exact hs)
    (by rw [hstep]; exact hx) rfl rfl rfl (by simpa [trackerSession] using hlen)
  rw [hrun]
  refine ⟨?_, h2, ?_, ?_, ?_⟩
  · rw [h1, hstep]; rfl
  · rw [h3]
    simp [trackerSession]
  · rw [h4, hstep]; rfl
  · rw [h5, hstep]
    split <;> rfl

theorem socketConnected_of_current (s : State) (i : Nat) (x : Session)
    (hs : s.socket = some i) (hx : s.sessions[i]? = some x) :
    socketConnected s = x.connected := by
  simp [socketConnected, currentSession, hs, hx]

theorem connectionState_of_current (s : State) (i : Nat) (x : Session)
    (hs : s.socket = some i) (hx : s.sessions[i]? = some x) :
    connectionState s =
      if x.connected then .Connected
      else if s.statusText = "Connecting..." then .Connecting
      else if s.statusText = "Connection Failed" then
        (if mayReconnect x then .Errored else .ReconnectExhausted)
      else .Disconnected := by
  simp [connectionState, currentSession, hs, hx]

/-- C6. With the reconnection policy of the transport library modelled from the
spec, on a session as `connectToTracker` opens it (attempt budget 5, delay
1000 ms, no attempt made): after the first attempt and up to five automatic
reconnection attempts have failed, nothing has been emitted, and the connection
state is `Errored` while fewer than five automatic attempts were made and
`ReconnectExhausted` after the fifth, when a further firing of the reconnection
timer changes nothing (no further automatic attempt).  A manual
`connectToTracker` with the library loaded then completes, opens a fresh
session with no attempt made, budget 5 and delay 1000 ms, makes it the current
one, and the connection state is `Connecting`. -/
theorem exhausted_after_budget_then_manual_connect (o : State) (i : Nat) (first : String)
    (messages : List String) (hio : o.ioLoaded = true) (hs : o.socket = some i)
    (hx : o.sessions[i]? = some trackerSession) (hlen : messages.length ≤ 5) :
    (connectionState (afterFailedAttempts o i first messages) =
        (if messages.length = 5 then .ReconnectExhausted else .Errored) ∧
      (messages.length = 5 →
        step (afterFailedAttempts o i first messages) (.reconnectTimer i) =
          afterFailedAttempts o i first messages) ∧
      (afterFailedAttempts o i first messages).sent = o.sent) ∧
    ((connectToTracker (afterFailedAttempts o i first messages)).completed = true ∧
      (connectToTracker (afterFailedAttempts o i first messages)).state.sessions =
        (afterFailedAttempts o i first messages).sessions ++ [trackerSession] ∧
      (connectToTracker (afterFailedAttempts o i first messages)).state.socket =
        some (afterFailedAttempts o i first messages).sessions.length ∧
      currentSession (connectToTracker (afterFailedAttempts o i first messages)).state =
        some trackerSession ∧
      connectionState (connectToTracker (afterFailedAttempts o i first messages)).state =
        .Connecting) ∧
    (trackerSession.attempts = 0 ∧ trackerSession.reconnectionAttempts = 5 ∧
      trackerSession.reconnectionDelay = 1000 ∧ trackerSession.reconnection = true) := by
  obtain ⟨h1, h2, h3, h4, h5⟩ := afterFailedAttempts_facts o i first messages hs hx hlen
  have hnc : socketConnected (afterFailedAttempts o i first messages) = false := by
    rw [socketConnected_of_current _ i _ h2 h3]
    rfl
  have hfresh := connect_fresh (afterFailedAttempts o i first messages) (by rw [h1, hio]) hnc
  refine ⟨⟨?_, ?_, h4⟩, ⟨?_, ?_, ?_, ?_, ?_⟩, ⟨rfl, rfl, rfl, rfl⟩⟩
  · rw [connectionState_of_current _ i _ h2 h3, h5]
    by_cases hfive : messages.length = 5
    · simp [hfive, mayReconnect, trackerSession]
    · have hless : messages.length < 5 := by omega
      simp [hfive, mayReconnect, trackerSession, hless]
  · intro hfive
    rw [reconnectTimer_step]
    have hfix : mapSession i reconnectAttempt
        (afterFailedAttempts o i first messages).sessions =
        (afterFailedAttempts o i first messages).sessions := by
      apply mapSession_fixed
      intro x hxi
      rw [h3] at hxi
      cases hxi
      simp [reconnectAttempt, mayReconnect, trackerSession, hfive]
    rw [hfix]
  · rw [hfresh]; rfl
  · rw [hfresh]; rfl
  · rw [hfresh]; rfl
  · rw [hfresh]
    simp [currentSession, Res.state]
  · rw [hfresh]
    have hcur : ({ withNotice (afterFailedAttempts o i first messages) "info"
          "📡 Connecting to tracker..." with
        statusText := "Connecting..."
        statusClass := "disconnected"
        socketStatusHtml := "🔄 Connecting..."
        socketStatusClass := "socket-status socket-bad"
        socket := some (afterFailedAttempts o i first messages).sessions.length
        sessions := (afterFailedAttempts o i first messages).sessions ++ [trackerSession] }
        : State).sessions[(afterFailedAttempts o i first messages).sessions.length]? =
        some trackerSession := List.getElem?_concat_length _ _
    rw [Res.state, connectionState_of_current _ _ _ rfl hcur]
    simp [trackerSession]

/-- C6 at the sample state with one session still connecting: after the first
attempt and five automatic attempts have failed the state is
`ReconnectExhausted`, the timer changes nothing, and a manual reconnect gives
`Connecting`. -/
theorem exhausted_after_budget_then_manual_connect_witness :
    sampleOpened.ioLoaded = true ∧ sampleOpened.socket = some 0 ∧
    sampleOpened.sessions[0]? = some trackerSession ∧
    (List.replicate 5 "websocket error").length ≤ 5 ∧
    connectionState sampleExhausted = .ReconnectExhausted ∧
    step sampleExhausted (.reconnectTimer 0) = sampleExhausted ∧
    connectionState (connectToTracker sampleExhausted).state = .Connecting :=
  ⟨rfl, rfl, rfl, by decide,
    (exhausted_after_budget_then_manual_connect sampleOpened 0 "websocket error"
      (List.replicate 5 "websocket error") rfl rfl rfl (by decide)).1.1,
    (exhausted_after_budget_then_manual_connect sampleOpened 0 "websocket error"
      (List.replicate 5 "websocket error") rfl rfl rfl (by decide)).1.2.1 rfl,
    (exhausted_after_budget_then_manual_connect sampleOpened 0 "websocket error"
      (List.replicate 5 "websocket error") rfl rfl rfl (by decide)).2.1.2.2.2.2⟩

/-! ## Which events the listeners process to the end (C9) -/

theorem getProp_present (v : JSVal) (key : String) (h : v.present = true) :
    v.getProp key = .ok (v.field key) := by
  cases v <;> simp [present] at h <;> rfl

theorem getProp_absent (v : JSVal) (key : String) (h : v.present = false) :
    ∃ e, v.getProp key = .error e := by
  cases v <;> simp [present] at h
  · exact ⟨_, rfl⟩
  · exact ⟨_, rfl⟩

theorem registerAsPeer_completed (t : State) : (registerAsPeer t).completed = true := by
  unfold registerAsPeer
  rw [guarded_run]
  cases hc : socketConnected t with
  | false => rfl
  | true =>
    obtain ⟨i, hi⟩ := socket_of_connected t hc
    simp [bind_run, log_str_run, emit, withNotice, hi, Res.completed]

theorem toText_cases (v : JSVal) :
    (v.printable = true ∧ v.toText = .ok v.toStr) ∨
    (v.printable = false ∧
      v.toText = .error (typeError "cannot convert object to primitive value")) := by
  cases h : v.printable with
  | true => exact Or.inl ⟨rfl, toText_of_printable v h⟩
  | false => exact Or.inr ⟨rfl, toText_of_not_printable v h⟩

theorem printable_orElse_str (v : JSVal) (d : String) :
    (v.orElse (.str d)).printable = (!v.truthy || v.printable) := by
  unfold orElse
  cases h : v.truthy with
  | true => simp
  | false => simp; rfl

theorem renderPeer_renders (v : JSVal) :
    (v.peerRenders = true → ∃ html, renderPeer v = .ok html) ∧
    (v.peerRenders = false → ∃ e, renderPeer v = .error e) := by
  cases hp : v.present with
  | false =>
    obtain ⟨e, he⟩ := getProp_absent v "peer_id" hp
    exact ⟨fun h => by simp [peerRenders, hp] at h,
      fun _ => ⟨e, by simp [renderPeer, he, bind, Except.bind]⟩⟩
  | true =>
    rcases toText_cases (v.field "peer_id") with ⟨p1, t1⟩ | ⟨p1, t1⟩ <;>
    rcases toText_cases (v.field "ip") with ⟨p2, t2⟩ | ⟨p2, t2⟩ <;>
    rcases toText_cases (v.field "port") with ⟨p3, t3⟩ | ⟨p3, t3⟩ <;>
    cases p4 : (v.field "connected_at").printable <;>
    simp [renderPeer, peerRenders, hp, getProp_present v _ hp, t1, t2, t3, p1, p2, p3, p4,
      localeTimeOf, bind, Except.bind, pure, Except.pure]

theorem renderTorrent_renders (v : JSVal) :
    (v.torrentRenders = true → ∃ html, renderTorrent v = .ok html) ∧
    (v.torrentRenders = false → ∃ e, renderTorrent v = .error e) := by
  cases hp : v.present with
  | false =>
    obtain ⟨e, he⟩ := getProp_absent v "filename" hp
    exact ⟨fun h => by simp [torrentRenders, hp] at h,
      fun _ => ⟨e, by simp [renderTorrent, he, bind, Except.bind]⟩⟩
  | true =>
    have q1 := printable_orElse_str (v.field "filename") "Unknown File"
    have q2 := printable_orElse_str (v.field "info_hash") "N/A"
    rcases toText_cases ((v.field "filename").orElse (.str "Unknown File")) with
      ⟨p1, t1⟩ | ⟨p1, t1⟩ <;>
    rcases toText_cases ((v.field "info_hash").orElse (.str "N/A")) with
      ⟨p2, t2⟩ | ⟨p2, t2⟩ <;>
    cases hs : (v.field "size").truthy <;>
    cases p3 : (v.field "size").printable <;>
    cases p4 : (v.field "uploaded_at").printable <;>
    rw [p1] at q1 <;> rw [p2] at q2 <;>
    simp [renderTorrent, torrentRenders, hp, getProp_present v _ hp, t1, t2, ← q1, ← q2, hs,
      p3, p4, sizeLabel, fixed2KBOf, localeTimeOf, bind, Except.bind, pure, Except.pure]

theorem renderAll_renders (render : JSVal → Except JSVal Html) (renders : JSVal → Bool)
    (hr : ∀ v, (renders v = true → ∃ html, render v = .ok html) ∧
      (renders v = false → ∃ e, render v = .error e)) (items : List JSVal) :
    (items.all renders = true → ∃ html, renderAll render items = .ok html) ∧
    (items.all renders = false → ∃ e, renderAll render items = .error e) := by
  induction items with
  | nil => exact ⟨fun _ => ⟨[], rfl⟩, fun h => by simp at h⟩
  | cons v rest ih =>
    cases hv : renders v with
    | false =>
      obtain ⟨e, he⟩ := (hr v).2 hv
      exact ⟨fun h => by simp [hv] at h, fun _ => ⟨e, by simp [renderAll, he]⟩⟩
    | true =>
      obtain ⟨html, hh⟩ := (hr v).1 hv
      constructor
      · intro h
        have hrest : rest.all renders = true := by simpa [hv] using h
        obtain ⟨hs, hhs⟩ := ih.1 hrest
        exact ⟨html ++ hs, by simp [renderAll, hh, hhs]⟩
      · intro h
        have hrest : rest.all renders = false := by
          cases hb : rest.all renders with
          | false => rfl
          | true => simp [List.all_cons, hv, hb] at h
        obtain ⟨e, he⟩ := ih.2 hrest
        exact ⟨e, by simp [renderAll, hh, he]⟩

theorem display_completed (render : JSVal → Except JSVal Html) (renders : JSVal → Bool)
    (hr : ∀ v, (renders v = true → ∃ html, render v = .ok html) ∧
      (renders v = false → ∃ e, render v = .error e))
    (put : Html → State → State) (placeholder : Html) (p : JSVal) (t : State) :
    ((if absentOrEmpty p = true then JS.modify (put placeholder)
        else JS.lift (mapJoin render p) >>= fun html => JS.modify (put html)) t).completed =
      p.rendersAsList renders := by
  cases p with
  | undefined => rfl
  | null => rfl
  | bool b => cases b <;> rfl
  | num n =>
    by_cases hn : n.magnitude.val = 0
    · simp [absentOrEmpty, truthy, hn, lengthIsZero, modify_run, Res.completed, rendersAsList]
    · simp [absentOrEmpty, truthy, hn, lengthIsZero, bind_run, mapJoin, lift_error_run,
        Res.completed, rendersAsList]
  | str s =>
    by_cases hs : s = ""
    · subst hs; rfl
    · simp [absentOrEmpty, truthy, hs, lengthIsZero, bind_run, mapJoin, lift_error_run,
        Res.completed, rendersAsList]
  | arr items =>
    cases items with
    | nil => rfl
    | cons v rest =>
      have h1 : absentOrEmpty (.arr (v :: rest)) = false := rfl
      simp only [h1, Bool.false_eq_true, if_false]
      rw [bind_run]
      cases hall : (v :: rest).all renders with
      | true =>
        obtain ⟨html, hh⟩ := (renderAll_renders render renders hr (v :: rest)).1 hall
        simp [mapJoin, hh, lift_ok_run, modify_run, Res.completed, rendersAsList]
        simpa using hall
      | false =>
        obtain ⟨e, he⟩ := (renderAll_renders render renders hr (v :: rest)).2 hall
        simp [mapJoin, he, lift_error_run, Res.completed, rendersAsList]
        simpa using hall
  | obj fields =>
    cases hlk : fields.lookup "length" with
    | none =>
      simp [absentOrEmpty, truthy, lengthIsZero, hlk, isZero, bind_run, mapJoin,
        lift_error_run, Res.completed, rendersAsList]
    | some len =>
      cases len with
      | num n =>
        by_cases hn : n.magnitude.val = 0
        · simp [absentOrEmpty, truthy, lengthIsZero, hlk, isZero, hn, modify_run,
            Res.completed, rendersAsList]
        · simp [absentOrEmpty, truthy, lengthIsZero, hlk, isZero, hn, bind_run, mapJoin,
            lift_error_run, Res.completed, rendersAsList]
      | _ =>
        simp [absentOrEmpty, truthy, lengthIsZero, hlk, isZero, bind_run, mapJoin,
          lift_error_run, Res.completed, rendersAsList]

theorem displayPeers_completed (p : JSVal) (t : State) :
    (displayPeers p t).completed = p.rendersAsList JSVal.peerRenders :=
  display_completed renderPeer JSVal.peerRenders renderPeer_renders
    (fun html s => { s with peersDiv := html }) noPeersHtml p t

theorem displayTorrents_completed (p : JSVal) (t : State) :
    (displayTorrents p t).completed = p.rendersAsList JSVal.torrentRenders :=
  display_completed renderTorrent JSVal.torrentRenders renderTorrent_renders
    (fun html s => { s with torrentsDiv := html }) noTorrentsHtml p t

theorem log_completed (message : String) (type : JSVal) (t : State) :
    (log message type t).completed =
      (match type with
        | .str _ => true
        | .undefined => true
        | _ => false) := by
  unfold log
  cases type <;> dsimp only <;> first | rfl | (split <;> rfl)

theorem thrown_of_absent {α : Type} (v : JSVal) (key : String) (f : JSVal → JS α) (t : State)
    (h : v.present = false) :
    ((JS.lift (v.getProp key) >>= f) t).completed = false := by
  obtain ⟨e, he⟩ := getProp_absent v key h
  rw [bind_run, he]
  rfl

theorem thrown_of_not_printable {α : Type} (v : JSVal) (f : String → JS α) (t : State)
    (h : v.printable = false) :
    ((JS.lift v.toText >>= f) t).completed = false := by
  rw [bind_run, toText_of_not_printable v h]
  rfl

/-- C9 as stated fails: the listeners throw on an absent payload, on a `null`
payload, on a list that contains a `null` record, on a `server_message` whose
`type` is a number, and on a member that does not convert to text. -/
theorem listeners_throw_on_malformed_payloads :
    (handle (.connect_error .undefined) sampleConnected).completed = false ∧
    (handle (.server_message .null) sampleConnected).completed = false ∧
    (handle (.server_message (.obj [("message", .str "hi"), ("type", .num 5)]))
      sampleConnected).completed = false ∧
    (handle (.peer_registered .undefined) sampleConnected).completed = false ∧
    (handle (.peer_registered (.obj [("peer_id", .obj [("toString", .null)])]))
      sampleConnected).completed = false ∧
    (handle (.peers_updated (.obj [("count", .num 1), ("peers", .arr [.null])]))
      sampleConnected).completed = false ∧
    (handle (.torrents_list (.obj [("count", .num 1), ("torrents", .arr [.undefined])]))
      sampleConnected).completed = false := by
  decide

/-- C9 (amended). In a state where the variable `socket` refers to a session,
a listener runs to completion exactly on the accepted events: `connect` always;
`disconnect` when the reason converts to text; `connect_error` and
`peer_registered` when the payload is neither absent nor `null` and its
`message`, respectively `peer_id`, converts to text; `server_message` when the
payload is present, its `message` converts to text and its `type` is a string
or falsy; `peers_updated` and `torrents_list` when the payload is present, its
`count` converts to text, and the list is absent or falsy, has `length` 0, or is
an array of records that render (present, with members that convert to text).
Missing members of a present payload or record never make a listener throw; on
every other payload the listener throws. -/
theorem listeners_complete_iff_accepted (s : State) (ev : Inbound)
    (h : ∃ sess, currentSession s = some sess) :
    (handle ev s).completed = accepted ev := by
  cases ev with
  | connect sid =>
    obtain ⟨sess, hsess⟩ := h
    show (onConnect s).completed = true
    unfold onConnect
    rw [bind_run, get_run]
    simp only [hsess]
    simp only [bind_run, log_str_run, updateStatus, updateSocketStatus, updateButtonStates,
      modify_run]
    exact registerAsPeer_completed _
  | disconnect reason =>
    show (onDisconnect reason s).completed = reason.printable
    cases hp : reason.printable with
    | false => exact thrown_of_not_printable reason _ s hp
    | true =>
      simp [onDisconnect, bind_run, toText_of_printable reason hp, lift_ok_run, log_str_run,
        updateStatus, updateSocketStatus, updateButtonStates, modify_run, Res.completed]
  | connect_error err =>
    show (onConnectError err s).completed = (err.present && (err.field "message").printable)
    cases hp : err.present with
    | false => exact thrown_of_absent err _ _ s hp
    | true =>
      cases hm : (err.field "message").printable with
      | false =>
        simp [onConnectError, bind_run, getProp_present err _ hp, lift_ok_run,
          toText_of_not_printable _ hm, lift_error_run, Res.completed]
      | true =>
        simp [onConnectError, bind_run, getProp_present err _ hp, lift_ok_run,
          toText_of_printable _ hm, log_str_run, updateStatus, updateSocketStatus, modify_run,
          Res.completed]
  | server_message data =>
    show (onServerMessage data s).completed =
      (data.present && (data.field "message").printable && (data.field "type").usableSeverity)
    cases hp : data.present with
    | false => exact thrown_of_absent data _ _ s hp
    | true =>
      cases hm : (data.field "message").printable with
      | false =>
        simp [onServerMessage, bind_run, getProp_present data _ hp, lift_ok_run,
          toText_of_not_printable _ hm, lift_error_run, Res.completed]
      | true =>
        simp only [onServerMessage, bind_run, getProp_present data _ hp, lift_ok_run,
          toText_of_printable _ hm, Bool.true_and]
        rw [log_completed]
        cases hty : data.field "type" with
        | undefined => rfl
        | null => rfl
        | bool b => cases b <;> rfl
        | num n =>
          by_cases hn : n.magnitude.val = 0
          · simp [orElse, truthy, hn, usableSeverity]
          · simp [orElse, truthy, hn, usableSeverity]
        | str t =>
          by_cases ht : t = ""
          · subst ht; rfl
          · simp [orElse, truthy, ht, usableSeverity]
        | arr items => rfl
        | obj fields => rfl
  | peer_registered data =>
    show (onPeerRegistered data s).completed =
      (data.present && (data.field "peer_id").printable)
    cases hp : data.present with
    | false => exact thrown_of_absent data _ _ s hp
    | true =>
      cases hm : (data.field "peer_id").printable with
      | false =>
        simp [onPeerRegistered, bind_run, getProp_present data _ hp, lift_ok_run,
          toText_of_not_printable _ hm, lift_error_run, Res.completed]
      | true =>
        simp [onPeerRegistered, bind_run, getProp_present data _ hp, lift_ok_run,
          toText_of_printable _ hm, log_str_run, Res.completed]
  | peers_updated data =>
    show (onPeersUpdated data s).completed =
      (data.present && (data.field "count").printable &&
        (data.field "peers").rendersAsList JSVal.peerRenders)
    cases hp : data.present with
    | false => exact thrown_of_absent data _ _ s hp
    | true =>
      cases hm : (data.field "count").printable with
      | false =>
        simp [onPeersUpdated, bind_run, getProp_present data _ hp, lift_ok_run,
          toText_of_not_printable _ hm, lift_error_run, Res.completed]
      | true =>
        obtain ⟨shown, hshown⟩ := toTextContent_of_printable _ hm
        rw [onPeersUpdated_run data _ _ _ shown s (getProp_present data _ hp)
          (toText_of_printable _ hm) hshown (getProp_present data _ hp),
          displayPeers_completed]
        rfl
  | torrents_list data =>
    show (onTorrentsList data s).completed =
      (data.present && (data.field "count").printable &&
        (data.field "torrents").rendersAsList JSVal.torrentRenders)
    cases hp : data.present with
    | false => exact thrown_of_absent data _ _ s hp
    | true =>
      cases hm : (data.field "count").printable with
      | false =>
        simp [onTorrentsList, bind_run, getProp_present data _ hp, lift_ok_run,
          toText_of_not_printable _ hm, lift_error_run, Res.completed]
      | true =>
        obtain ⟨shown, hshown⟩ := toTextContent_of_printable _ hm
        rw [onTorrentsList_run data _ _ _ shown s (getProp_present data _ hp)
          (toText_of_printable _ hm) hshown (getProp_present data _ hp),
          displayTorrents_completed]
        rfl

/-- C9 (amended) at the sample connected state and a `peers_updated` payload
whose only record lacks every member. -/
theorem listeners_complete_iff_accepted_witness :
    (∃ sess, currentSession sampleConnected = some sess) ∧
    (handle (.peers_updated (.obj [("peers", .arr [.obj []])])) sampleConnected).completed =
      true :=
  ⟨⟨_, rfl⟩,
    (listeners_complete_iff_accepted sampleConnected
      (.peers_updated (.obj [("peers", .arr [.obj []])])) ⟨_, rfl⟩).trans (by decide)⟩

end TrackerClient
